import Mathlib

/-!
# swc: framebuffer_plane.c

A shallow embedding of `libswc/framebuffer_plane.c`: the framebuffer handle
cache kept on a wld buffer, the plane's mode-set / page-flip state machine,
the event bridge, and plane construction and teardown.

Conventions of the embedding.

* `uint32_t` values (ids, handles, timestamps) are `Nat`; `int` return codes
  are `Int`.  The only arithmetic in the file is the byte size of the
  connector array, `num_connectors * sizeof connectors[0]` (a `size_t` product
  of a 32-bit count by 4), and `connectors.size / 4`, which undoes it; neither
  wraps.
* Every function returns, next to its C result, the objects it mutated and the
  list of calls it made on its collaborators (libdrm, the wayland event loop
  and signal, `view_frame`), oldest first.  Each recorded call carries the
  value the collaborator answered with.
* What a collaborator answers is not decided by this file; it is passed in as
  an environment record (`AttachEnv`, `InitEnv`), one per invocation.
* A `bool` result with an out-parameter is an `Option`.
-/

namespace Swc

/-! ## Constants -/

/-- errno.h: `EINVAL`. -/
def EINVAL : Int := 22

/-- errno.h: `ENOMEM`. -/
def ENOMEM : Int := 12

/-- wld.h: first object type id available to users of the library. -/
def WLD_USER_ID : Nat := 0xff000000

/-- wld/drm.h: first object type id of the DRM back-end. -/
def WLD_DRM_ID : Nat := 0x02000000

/-- wld/drm.h: object type "GEM handle of the buffer". -/
def WLD_DRM_OBJECT_HANDLE : Nat := WLD_DRM_ID

/-- framebuffer_plane.c, lines 37-40. -/
def WLD_USER_OBJECT_FRAMEBUFFER : Nat := WLD_USER_ID

/-- xf86drmMode.h / drm_mode.h. -/
def DRM_MODE_PAGE_FLIP_EVENT : Nat := 0x01

/-- swc.h: first enumerator of the event kinds broadcast on `swc.event_signal`. -/
def SWC_EVENT_ACTIVATED : Nat := 0

/-! ## Kernel mode-setting data -/

/-- xf86drmMode.h `drmModeModeInfo` (the timing fields that identify a mode). -/
structure drmModeModeInfo where
  clock : Nat
  hdisplay : Nat
  vdisplay : Nat
  vrefresh : Nat
  deriving DecidableEq, Repr

/-- xf86drmMode.h `drmModeCrtc`: what `drmModeGetCrtc` reports. -/
structure drmModeCrtc where
  crtc_id : Nat
  buffer_id : Nat
  x : Nat
  y : Nat
  mode : drmModeModeInfo
  deriving DecidableEq, Repr

/-- mode.h `struct swc_mode`. -/
structure swc_mode where
  width : Nat
  height : Nat
  info : drmModeModeInfo
  deriving DecidableEq, Repr

/-! ## Recorded calls -/

/-- The functions of this file that it hands to `wl_event_loop_add_idle` as the
task to run: `send_frame` is the only one. -/
inductive idle_callback where
  | send_frame
  deriving DecidableEq, Repr

/-- One call made by this file on a collaborator, with the collaborator's answer. -/
inductive Call where
  | drmModeGetCrtc (crtc : Nat) (result : Option drmModeCrtc)
  | drmModeFreeCrtc (crtc : drmModeCrtc)
  | drmModeAddFB (width height depth bpp pitch handle : Nat) (ret : Int) (buf_id : Nat)
  | drmModeRmFB (id : Nat)
  /-- `connectors = none` is a NULL connector pointer. -/
  | drmModeSetCrtc (crtc_id buffer_id x y : Nat) (connectors : Option (List Nat))
      (count : Nat) (mode : drmModeModeInfo) (ret : Int)
  /-- The user-data argument is always `&plane->drm_handler` and is not recorded. -/
  | drmModePageFlip (crtc_id fb_id flags : Nat) (ret : Int)
  /-- `wl_event_loop_add_idle(swc.event_loop, func, plane)`: `func` is queued to
  run once, later, from the event loop; its data argument is always the plane. -/
  | wl_event_loop_add_idle (func : idle_callback)
  /-- `view_frame(&plane->view, time)`: the frame-presented notification. -/
  | view_frame (time : Nat)
  | wl_signal_add
  | wl_array_release
  /-- A destructor registered on the buffer by some other module ran. -/
  | foreign_destroy (tag : Nat)
  deriving DecidableEq, Repr

/-- The call is a `drmModeSetCrtc`. -/
def Call.isSetCrtc : Call → Bool
  | .drmModeSetCrtc .. => true
  | _ => false

/-- The call is a `drmModeSetCrtc` that returned 0. -/
def Call.isSetCrtcOk : Call → Bool
  | .drmModeSetCrtc _ _ _ _ _ _ _ ret => decide (ret = 0)
  | _ => false

/-- The call is a `drmModePageFlip`. -/
def Call.isPageFlip : Call → Bool
  | .drmModePageFlip .. => true
  | _ => false

/-- The call is a `drmModeAddFB`. -/
def Call.isAddFB : Call → Bool
  | .drmModeAddFB .. => true
  | _ => false

/-- The call queues the deferred `send_frame` task. -/
def Call.isAddIdle : Call → Bool
  | .wl_event_loop_add_idle _ => true
  | _ => false

/-- The call delivers a frame-presented notification. -/
def Call.isViewFrame : Call → Bool
  | .view_frame _ => true
  | _ => false

/-- The ids named by the `drmModeRmFB` calls of a trace, in order. -/
def rmfb_ids (calls : List Call) : List Nat :=
  calls.filterMap fun
    | .drmModeRmFB id => some id
    | _ => none

/-- The ids stored by the `drmModeAddFB` calls of a trace that were not rejected
(return code not negative), in order. -/
def addfb_ids (calls : List Call) : List Nat :=
  calls.filterMap fun
    | .drmModeAddFB _ _ _ _ _ _ ret id => if ret < 0 then none else some id
    | _ => none

/-! ## The wld buffer and its capability lists -/

/-- framebuffer_plane.c, lines 42-47.  The embedded exporter and destructor
links are represented by the `framebuffer` constructors of `wld_exporter` and
`wld_destructor`. -/
structure framebuffer where
  id : Nat
  deriving DecidableEq, Repr

/-- framebuffer_plane.c, lines 49-65. -/
def framebuffer_export (fb : framebuffer) (type : Nat) : Option Nat :=
  if type = WLD_USER_OBJECT_FRAMEBUFFER then some fb.id else none

/-- An exporter on a buffer's list: either one whose `export` is
`framebuffer_export`, or one owned by another module (or by the buffer's own
implementation), which answers some object types. -/
inductive wld_exporter where
  | framebuffer (fb : framebuffer)
  | foreign (answer : Nat → Option Nat)

/-- Invoke the exporter's `export` function pointer. -/
def wld_exporter.call : wld_exporter → Nat → Option Nat
  | .framebuffer fb, type => framebuffer_export fb type
  | .foreign answer, type => answer type

/-- A destructor on a buffer's list: either one whose `destroy` is
`framebuffer_destroy`, or one owned by another module. -/
inductive wld_destructor where
  | framebuffer (fb : framebuffer)
  | foreign (tag : Nat)
  deriving DecidableEq, Repr

/-- wld.h `struct wld_buffer`, with the exporter and destructor lists kept by wld. -/
structure wld_buffer where
  width : Nat
  height : Nat
  pitch : Nat
  exporters : List wld_exporter
  destructors : List wld_destructor

/-- wld `wld_export`: the first exporter on the list that answers the type. -/
def wld_export (buffer : wld_buffer) (type : Nat) : Option Nat :=
  buffer.exporters.findSome? fun e => e.call type

/-- wld `wld_buffer_add_exporter`: link the exporter at the head of the list. -/
def wld_buffer_add_exporter (buffer : wld_buffer) (e : wld_exporter) : wld_buffer :=
  { buffer with exporters := e :: buffer.exporters }

/-- wld `wld_buffer_add_destructor`: link the destructor at the head of the list. -/
def wld_buffer_add_destructor (buffer : wld_buffer) (d : wld_destructor) : wld_buffer :=
  { buffer with destructors := d :: buffer.destructors }

/-- framebuffer_plane.c, lines 67-74. -/
def framebuffer_destroy (fb : framebuffer) : List Call :=
  [Call.drmModeRmFB fb.id]

/-- Invoke the destructor's `destroy` function pointer. -/
def wld_destructor.call : wld_destructor → List Call
  | .framebuffer fb => framebuffer_destroy fb
  | .foreign tag => [Call.foreign_destroy tag]

/-- wld, on the last `wld_buffer_unreference`: every destructor on the list runs once. -/
def wld_buffer_destroy (buffer : wld_buffer) : List Call :=
  (buffer.destructors.map wld_destructor.call).flatten

/-- The framebuffer handles whose exporter is on the buffer's list. -/
def fb_exporters (buffer : wld_buffer) : List framebuffer :=
  buffer.exporters.filterMap fun
    | .framebuffer fb => some fb
    | .foreign _ => none

/-- The framebuffer handles whose destructor is on the buffer's list. -/
def fb_destructors (buffer : wld_buffer) : List framebuffer :=
  buffer.destructors.filterMap fun
    | .framebuffer fb => some fb
    | .foreign _ => none

/-! ## The plane -/

/-- util.h `struct swc_rectangle`. -/
structure swc_rectangle where
  x : Int
  y : Int
  width : Nat
  height : Nat
  deriving DecidableEq, Repr

/-- view.h `struct view`: the part this file reads or writes. -/
structure view where
  geometry : swc_rectangle
  deriving DecidableEq, Repr

/-- The two functions of view.c that this file calls with `&plane->view` and
that may write to it.  view.c is not part of this file, so they are
parameters of the embedding; all a caller can rely on is that they receive the
view alone. -/
structure ViewModule where
  view_initialize : view → view
  view_set_position : view → Int → Int → view

/-- wayland-util.h `struct wl_array` holding `uint32_t` words: the size in
bytes and the storage (`none` is a NULL `data` pointer). -/
structure wl_array where
  size : Nat
  data : Option (List Nat)
  deriving DecidableEq, Repr

/-- wayland-util `wl_array_init`. -/
def wl_array_init : wl_array := { size := 0, data := none }

/-- framebuffer_plane.h `struct framebuffer_plane`.  `drm_handler` and
`swc_listener` record whether the function pointer has been set to
`handle_page_flip`, respectively `handle_swc_event`. -/
structure framebuffer_plane where
  crtc : Nat
  original_crtc_state : Option drmModeCrtc
  mode : swc_mode
  view : view
  connectors : wl_array
  need_modeset : Bool
  drm_handler : Bool
  swc_listener : Bool
  deriving DecidableEq, Repr

/-- framebuffer_plane.c, lines 76-79. -/
def update (_plane : framebuffer_plane) : Bool := true

/-- framebuffer_plane.c, lines 81-86; `now` is what `swc_time()` returns. -/
def send_frame (now : Nat) (_plane : framebuffer_plane) : List Call :=
  [Call.view_frame now]

/-- Invoke a queued idle task: the function pointer given to
`wl_event_loop_add_idle`, applied to the plane given as its data. -/
def idle_callback.call : idle_callback → Nat → framebuffer_plane → List Call
  | .send_frame, now, plane => Swc.send_frame now plane

/-- The idle tasks queued by a trace, in order. -/
def queued_idle (calls : List Call) : List idle_callback :=
  calls.filterMap fun
    | .wl_event_loop_add_idle func => some func
    | _ => none

/-- wayland event loop, idle dispatch: every task queued by the trace runs once,
in order, on the plane as it is then; `now` is what `swc_time()` returns. -/
def dispatch_idle (now : Nat) (plane : framebuffer_plane) (calls : List Call) : List Call :=
  ((queued_idle calls).map fun func => func.call now plane).flatten

/-- What the collaborators answer during one call of `attach`. -/
structure AttachEnv where
  /-- whether `malloc(sizeof *framebuffer)` returns non-NULL -/
  malloc : Bool
  /-- return code of `drmModeAddFB` and the id found in `framebuffer->id` after it -/
  drmModeAddFB : Int × Nat
  /-- return code of `drmModeSetCrtc` -/
  drmModeSetCrtc : Int
  /-- return code of `drmModePageFlip` -/
  drmModePageFlip : Int

/-- Outcome of lines 94-122 of `attach`: either the code `attach` returns at
once, or the value left in `object.u32`. -/
structure Resolved where
  ret : Except Int Nat
  buffer : wld_buffer
  calls : List Call

/-- framebuffer_plane.c, lines 94-122: the framebuffer id of the buffer. -/
def attach_framebuffer (env : AttachEnv) (buffer : wld_buffer) : Resolved :=
  match wld_export buffer WLD_USER_OBJECT_FRAMEBUFFER with
  | some id => { ret := .ok id, buffer := buffer, calls := [] }
  | none =>
    match wld_export buffer WLD_DRM_OBJECT_HANDLE with
    | none => { ret := .error (-EINVAL), buffer := buffer, calls := [] }
    | some handle =>
      if env.malloc = false then
        { ret := .error (-ENOMEM), buffer := buffer, calls := [] }
      else
        let ret := env.drmModeAddFB.1
        let fb : framebuffer := { id := env.drmModeAddFB.2 }
        let call := Call.drmModeAddFB buffer.width buffer.height 24 32 buffer.pitch handle
          ret fb.id
        if ret < 0 then
          { ret := .error ret, buffer := buffer, calls := [call] }
        else
          let buffer := wld_buffer_add_exporter buffer (.framebuffer fb)
          let buffer := wld_buffer_add_destructor buffer (.framebuffer fb)
          { ret := .ok fb.id, buffer := buffer, calls := [call] }

/-- Result of `attach`: the returned code, the plane and the buffer afterwards,
and the calls made. -/
structure AttachResult where
  ret : Int
  plane : framebuffer_plane
  buffer : wld_buffer
  calls : List Call

/-- framebuffer_plane.c, lines 88-155. -/
def attach (env : AttachEnv) (plane : framebuffer_plane) (buffer : wld_buffer) :
    AttachResult :=
  let r := attach_framebuffer env buffer
  match r.ret with
  | .error e => { ret := e, plane := plane, buffer := r.buffer, calls := r.calls }
  | .ok object =>
    if plane.need_modeset then
      let ret := env.drmModeSetCrtc
      let call := Call.drmModeSetCrtc plane.crtc object 0 0 plane.connectors.data
        (plane.connectors.size / 4) plane.mode.info ret
      if ret = 0 then
        { ret := 0, plane := { plane with need_modeset := false }, buffer := r.buffer,
          calls := r.calls ++ [call, Call.wl_event_loop_add_idle .send_frame] }
      else
        { ret := ret, plane := plane, buffer := r.buffer, calls := r.calls ++ [call] }
    else
      let ret := env.drmModePageFlip
      let call := Call.drmModePageFlip plane.crtc object DRM_MODE_PAGE_FLIP_EVENT ret
      if ret < 0 then
        { ret := ret, plane := plane, buffer := r.buffer, calls := r.calls ++ [call] }
      else
        { ret := 0, plane := plane, buffer := r.buffer, calls := r.calls ++ [call] }

/-- framebuffer_plane.c, lines 157-162. -/
def move (V : ViewModule) (plane : framebuffer_plane) (x y : Int) :
    Bool × framebuffer_plane :=
  (true, { plane with view := V.view_set_position plane.view x y })

/-- framebuffer_plane.c, lines 170-176. -/
def handle_page_flip (_plane : framebuffer_plane) (time : Nat) : List Call :=
  [Call.view_frame time]

/-- swc.h `struct swc_event`. -/
structure swc_event where
  type : Nat
  deriving DecidableEq, Repr

/-- framebuffer_plane.c, lines 178-190. -/
def handle_swc_event (plane : framebuffer_plane) (event : swc_event) : framebuffer_plane :=
  if event.type = SWC_EVENT_ACTIVATED then { plane with need_modeset := true } else plane

/-- What the collaborators answer during `framebuffer_plane_initialize`. -/
structure InitEnv where
  /-- the CRTC state `drmModeGetCrtc` returns, `none` for NULL -/
  drmModeGetCrtc : Option drmModeCrtc
  /-- whether `wl_array_add` returns non-NULL -/
  wl_array_add : Bool

/-- Result of `framebuffer_plane_initialize`. -/
structure InitResult where
  ok : Bool
  plane : framebuffer_plane
  calls : List Call

/-- framebuffer_plane.c, lines 192-233.  `connectors` is the array of
`num_connectors` ids the caller passes. -/
def framebuffer_plane_initialize (V : ViewModule) (env : InitEnv) (plane : framebuffer_plane)
    (crtc : Nat) (mode : swc_mode) (connectors : List Nat) : InitResult :=
  let num_connectors := connectors.length
  let plane := { plane with original_crtc_state := env.drmModeGetCrtc }
  match env.drmModeGetCrtc with
  | none => { ok := false, plane := plane, calls := [Call.drmModeGetCrtc crtc none] }
  | some state =>
    let plane := { plane with connectors := wl_array_init }
    if env.wl_array_add = false then
      { ok := false, plane := plane,
        calls := [Call.drmModeGetCrtc crtc (some state), Call.drmModeFreeCrtc state] }
    else
      let plane := { plane with
        connectors := { size := num_connectors * 4, data := some connectors } }
      let plane := { plane with crtc := crtc, need_modeset := true }
      let v := V.view_initialize plane.view
      let v := { v with geometry := { v.geometry with width := mode.width } }
      let v := { v with geometry := { v.geometry with height := mode.height } }
      let plane := { plane with view := v }
      let plane := { plane with drm_handler := true, swc_listener := true, mode := mode }
      { ok := true, plane := plane,
        calls := [Call.drmModeGetCrtc crtc (some state), Call.wl_signal_add] }

/-- framebuffer_plane.c, lines 235-242.  `ret` is what the `drmModeSetCrtc`
call answers (the code ignores it).  The result is `none` when
`original_crtc_state` is NULL, which the code dereferences. -/
def framebuffer_plane_finalize (ret : Int) (plane : framebuffer_plane) : Option (List Call) :=
  match plane.original_crtc_state with
  | none => none
  | some crtc =>
    some [Call.wl_array_release,
          Call.drmModeSetCrtc crtc.crtc_id crtc.buffer_id crtc.x crtc.y none 0 crtc.mode ret,
          Call.drmModeFreeCrtc crtc]

/-! ## Sequences of operations -/

/-- One thing that can happen to an initialized plane before it is finalized. -/
inductive Op where
  | attach (env : AttachEnv) (buffer : wld_buffer)
  | move (x y : Int)
  | update
  | page_flip (time : Nat)
  | swc_event (event : swc_event)
  | send_frame (now : Nat)

/-- The operation is the delivery of an `SWC_EVENT_ACTIVATED` event. -/
def Op.isActivated : Op → Bool
  | .swc_event event => decide (event.type = SWC_EVENT_ACTIVATED)
  | _ => false

/-- Perform one operation on the plane: the plane afterwards and the calls made. -/
def step (V : ViewModule) (plane : framebuffer_plane) : Op → framebuffer_plane × List Call
  | .attach env buffer => ((attach env plane buffer).plane, (attach env plane buffer).calls)
  | .move x y => ((move V plane x y).2, [])
  | .update => (plane, [])
  | .page_flip time => (plane, handle_page_flip plane time)
  | .swc_event event => (handle_swc_event plane event, [])
  | .send_frame now => (plane, send_frame now plane)

/-- Perform a sequence of operations, oldest first: the plane afterwards. -/
def run (V : ViewModule) (plane : framebuffer_plane) (ops : List Op) : framebuffer_plane :=
  ops.foldl (fun p op => (step V p op).1) plane

/-- The operation, performed on the plane, completes a `drmModeSetCrtc` that
returns 0. -/
def completes_modeset (V : ViewModule) (plane : framebuffer_plane) (op : Op) : Bool :=
  (step V plane op).2.any Call.isSetCrtcOk

/-- A sequence of `attach` calls on one buffer, oldest first, each with its own
environment and plane: the buffer afterwards and all calls made. -/
def attach_seq : List (AttachEnv × framebuffer_plane) → wld_buffer → wld_buffer × List Call
  | [], buffer => (buffer, [])
  | (env, plane) :: rest, buffer =>
    let r := attach env plane buffer
    let s := attach_seq rest r.buffer
    (s.1, r.calls ++ s.2)

/-! ## Sample objects

Concrete values on which the statements below are evaluated. -/

/-- A view module that clears the geometry on initialization and stores the
position it is given. -/
def sample_view_module : ViewModule where
  view_initialize := fun _ => { geometry := { x := 0, y := 0, width := 0, height := 0 } }
  view_set_position := fun v x y =>
    { geometry := { x := x, y := y, width := v.geometry.width, height := v.geometry.height } }

/-- A 1920x1080 mode. -/
def sample_mode : swc_mode :=
  { width := 1920, height := 1080,
    info := { clock := 148500, hdisplay := 1920, vdisplay := 1080, vrefresh := 60 } }

/-- The configuration found on CRTC 5 before the plane takes it over. -/
def sample_crtc_state : drmModeCrtc :=
  { crtc_id := 5, buffer_id := 11, x := 16, y := 8,
    mode := { clock := 65000, hdisplay := 1024, vdisplay := 768, vrefresh := 60 } }

/-- Zeroed storage for a plane that has not been initialized. -/
def sample_storage : framebuffer_plane :=
  { crtc := 0, original_crtc_state := none,
    mode := { width := 0, height := 0,
              info := { clock := 0, hdisplay := 0, vdisplay := 0, vrefresh := 0 } },
    view := { geometry := { x := 0, y := 0, width := 0, height := 0 } },
    connectors := { size := 0, data := none },
    need_modeset := false, drm_handler := false, swc_listener := false }

/-- Both `drmModeGetCrtc` and `wl_array_add` succeed. -/
def sample_init_env : InitEnv :=
  { drmModeGetCrtc := some sample_crtc_state, wl_array_add := true }

/-- The plane of the scenario: `initialize(crtc=5, mode=1920x1080, connectors=[7])`. -/
def sample_plane : framebuffer_plane :=
  ( framebuffer_plane_initialize sample_view_module sample_init_env sample_storage 5
    sample_mode [7]).plane

/-- A freshly allocated DRM buffer: its implementation exports the GEM handle
and nothing else is attached. -/
def sample_buffer (handle : Nat) : wld_buffer :=
  { width := 1920, height := 1080, pitch := 7680,
    exporters := [.foreign fun type => if type = WLD_DRM_OBJECT_HANDLE then some handle else none],
    destructors := [] }

/-- A buffer that cannot export a GEM handle (not a DRM buffer). -/
def sample_shm_buffer : wld_buffer :=
  { width := 64, height := 64, pitch := 256, exporters := [], destructors := [] }

/-- Every call succeeds; `drmModeAddFB` stores the id `fb_id`. -/
def sample_env (fb_id : Nat) : AttachEnv :=
  { malloc := true, drmModeAddFB := (0, fb_id), drmModeSetCrtc := 0, drmModePageFlip := 0 }

/-- `drmModeSetCrtc` and `drmModePageFlip` are refused with `-EACCES`
(the session does not own the device). -/
def sample_env_refused (fb_id : Nat) : AttachEnv :=
  { malloc := true, drmModeAddFB := (0, fb_id), drmModeSetCrtc := -13, drmModePageFlip := -13 }

/-- `drmModeAddFB` is rejected with `-EINVAL`. -/
def sample_env_addfb_rejected : AttachEnv :=
  { malloc := true, drmModeAddFB := (-22, 0), drmModeSetCrtc := 0, drmModePageFlip := 0 }

/-- The sample DRM buffer after it has been scanned out once: the framebuffer
with id 31 registered by that first `attach` is linked onto it. -/
def sample_scanned_buffer : wld_buffer :=
  (attach (sample_env 31) sample_plane (sample_buffer 3)).buffer

/-- A session on the sample plane: a first frame, its deferred notification, a
move, a readiness probe, a second frame and its flip completion, a
re-activation, and a frame whose mode-set is refused. -/
def sample_ops : List Op :=
  [.attach (sample_env 31) (sample_buffer 3), .send_frame 100, .move 10 20, .update,
   .attach (sample_env 32) (sample_buffer 4), .page_flip 116,
   .swc_event { type := SWC_EVENT_ACTIVATED },
   .attach (sample_env_refused 31) sample_scanned_buffer]

/-! ## Facts about the framebuffer-id resolution (lines 94-122) -/

/-- The resolution step makes at most one call, and only ever `drmModeAddFB`. -/
theorem attach_framebuffer_calls (env : AttachEnv) (buffer : wld_buffer) :
    (attach_framebuffer env buffer).calls = [] ∨
    ∃ handle, wld_export buffer WLD_DRM_OBJECT_HANDLE = some handle ∧
      (attach_framebuffer env buffer).calls =
        [Call.drmModeAddFB buffer.width buffer.height 24 32 buffer.pitch handle
          env.drmModeAddFB.1 env.drmModeAddFB.2] := by
  unfold attach_framebuffer
  split
  · simp
  · split
    · simp
    · rename_i handle hh
      split
      · simp
      · right
        refine ⟨handle, hh, ?_⟩
        dsimp only
        split <;> rfl

/-- The resolution step issues no `drmModeSetCrtc`. -/
theorem attach_framebuffer_no_setcrtc (env : AttachEnv) (buffer : wld_buffer) :
    (attach_framebuffer env buffer).calls.countP Call.isSetCrtc = 0 := by
  rcases attach_framebuffer_calls env buffer with h | ⟨_, _, h⟩ <;> rw [h] <;> rfl

/-- The resolution step issues no `drmModePageFlip`. -/
theorem attach_framebuffer_no_pageflip (env : AttachEnv) (buffer : wld_buffer) :
    (attach_framebuffer env buffer).calls.countP Call.isPageFlip = 0 := by
  rcases attach_framebuffer_calls env buffer with h | ⟨_, _, h⟩ <;> rw [h] <;> rfl

/-- The resolution step queues no idle task. -/
theorem attach_framebuffer_no_idle (env : AttachEnv) (buffer : wld_buffer) :
    (attach_framebuffer env buffer).calls.countP Call.isAddIdle = 0 := by
  rcases attach_framebuffer_calls env buffer with h | ⟨_, _, h⟩ <;> rw [h] <;> rfl

/-- The resolution step delivers no frame notification. -/
theorem attach_framebuffer_no_view_frame (env : AttachEnv) (buffer : wld_buffer) :
    (attach_framebuffer env buffer).calls.countP Call.isViewFrame = 0 := by
  rcases attach_framebuffer_calls env buffer with h | ⟨_, _, h⟩ <;> rw [h] <;> rfl

/-- The resolution step queues nothing on the event loop. -/
theorem attach_framebuffer_queued_idle (env : AttachEnv) (buffer : wld_buffer) :
    queued_idle (attach_framebuffer env buffer).calls = [] := by
  rcases attach_framebuffer_calls env buffer with h | ⟨_, _, h⟩ <;> rw [h] <;> rfl

/-- With a resolved id and `need_modeset` set, `attach` is the mode-set path. -/
theorem attach_modeset_path (env : AttachEnv) (plane : framebuffer_plane) (buffer : wld_buffer)
    (id : Nat) (hres : (attach_framebuffer env buffer).ret = .ok id)
    (hneed : plane.need_modeset = true) :
    attach env plane buffer =
      if env.drmModeSetCrtc = 0 then
        { ret := 0, plane := { plane with need_modeset := false },
          buffer := (attach_framebuffer env buffer).buffer,
          calls := (attach_framebuffer env buffer).calls ++
            [Call.drmModeSetCrtc plane.crtc id 0 0 plane.connectors.data
              (plane.connectors.size / 4) plane.mode.info env.drmModeSetCrtc,
             Call.wl_event_loop_add_idle .send_frame] }
      else
        { ret := env.drmModeSetCrtc, plane := plane,
          buffer := (attach_framebuffer env buffer).buffer,
          calls := (attach_framebuffer env buffer).calls ++
            [Call.drmModeSetCrtc plane.crtc id 0 0 plane.connectors.data
              (plane.connectors.size / 4) plane.mode.info env.drmModeSetCrtc] } := by
  simp only [attach, hres, hneed, if_true]

/-- With a resolved id and `need_modeset` clear, `attach` is the flip path. -/
theorem attach_flip_path (env : AttachEnv) (plane : framebuffer_plane) (buffer : wld_buffer)
    (id : Nat) (hres : (attach_framebuffer env buffer).ret = .ok id)
    (hneed : plane.need_modeset = false) :
    attach env plane buffer =
      { ret := if env.drmModePageFlip < 0 then env.drmModePageFlip else 0, plane := plane,
        buffer := (attach_framebuffer env buffer).buffer,
        calls := (attach_framebuffer env buffer).calls ++
          [Call.drmModePageFlip plane.crtc id DRM_MODE_PAGE_FLIP_EVENT env.drmModePageFlip] } := by
  simp only [attach, hres, hneed, Bool.false_eq_true, if_false]
  split <;> rfl

/-- With a failed resolution, `attach` returns its code and touches nothing else. -/
theorem attach_error_path (env : AttachEnv) (plane : framebuffer_plane) (buffer : wld_buffer)
    (e : Int) (hres : (attach_framebuffer env buffer).ret = .error e) :
    attach env plane buffer =
      { ret := e, plane := plane, buffer := (attach_framebuffer env buffer).buffer,
        calls := (attach_framebuffer env buffer).calls } := by
  simp only [attach, hres]

/-- On the mode-set path exactly one `drmModeSetCrtc` and no `drmModePageFlip` is issued. -/
theorem attach_modeset_counts (env : AttachEnv) (plane : framebuffer_plane)
    (buffer : wld_buffer) (id : Nat) (hres : (attach_framebuffer env buffer).ret = .ok id)
    (hneed : plane.need_modeset = true) :
    (attach env plane buffer).calls.countP Call.isSetCrtc = 1 ∧
    (attach env plane buffer).calls.countP Call.isPageFlip = 0 := by
  rw [attach_modeset_path env plane buffer id hres hneed]
  split <;>
    simp [List.countP_append, attach_framebuffer_no_setcrtc, attach_framebuffer_no_pageflip,
      List.countP_cons, Call.isSetCrtc, Call.isPageFlip]

/-- A successful initialization leaves `need_modeset` set. -/
theorem initialize_need_modeset (V : ViewModule) (ienv : InitEnv) (p0 : framebuffer_plane)
    (crtc : Nat) (mode : swc_mode) (cs : List Nat)
    (hinit : ( framebuffer_plane_initialize V ienv p0 crtc mode cs).ok = true) :
    ( framebuffer_plane_initialize V ienv p0 crtc mode cs).plane.need_modeset = true := by
  unfold framebuffer_plane_initialize at hinit ⊢
  split at hinit
  · simp at hinit
  · rename_i st hst
    simp only [hst]
    split at hinit
    · simp at hinit
    · rename_i hadd
      simp [hadd]

/-! ## The first attach after construction -/

/-- C1: on a plane for which `framebuffer_plane_initialize` has just returned
true, and for a buffer whose framebuffer id resolves, `attach` issues exactly
one `drmModeSetCrtc` and no `drmModePageFlip`, whatever `drmModeSetCrtc`
answers. -/
theorem first_attach_is_modeset (V : ViewModule) (ienv : InitEnv) (p0 : framebuffer_plane)
    (crtc : Nat) (mode : swc_mode) (cs : List Nat) (env : AttachEnv) (buffer : wld_buffer)
    (id : Nat)
    (hinit : ( framebuffer_plane_initialize V ienv p0 crtc mode cs).ok = true)
    (hres : (attach_framebuffer env buffer).ret = .ok id) :
    (attach env ( framebuffer_plane_initialize V ienv p0 crtc mode cs).plane buffer).calls.countP
        Call.isSetCrtc = 1 ∧
    (attach env ( framebuffer_plane_initialize V ienv p0 crtc mode cs).plane buffer).calls.countP
        Call.isPageFlip = 0 :=
  attach_modeset_counts env _ buffer id hres
    (initialize_need_modeset V ienv p0 crtc mode cs hinit)

/-- C1 evaluated on the sample plane with a refused mode-set. -/
theorem first_attach_is_modeset_witness :
    ( framebuffer_plane_initialize sample_view_module sample_init_env sample_storage 5
        sample_mode [7]).ok = true ∧
    (attach_framebuffer (sample_env_refused 31) (sample_buffer 3)).ret = .ok 31 ∧
    (attach (sample_env_refused 31)
      ( framebuffer_plane_initialize sample_view_module sample_init_env sample_storage 5
        sample_mode [7]).plane (sample_buffer 3)).calls.countP Call.isSetCrtc = 1 ∧
    (attach (sample_env_refused 31)
      ( framebuffer_plane_initialize sample_view_module sample_init_env sample_storage 5
        sample_mode [7]).plane (sample_buffer 3)).calls.countP Call.isPageFlip = 0 :=
  ⟨rfl, rfl, first_attach_is_modeset sample_view_module sample_init_env sample_storage 5
    sample_mode [7] (sample_env_refused 31) (sample_buffer 3) 31 rfl rfl⟩

/-! ## Failed attach -/

/-- Whenever `attach` returns a non-zero code the plane is left as it was. -/
theorem attach_failure_plane (env : AttachEnv) (plane : framebuffer_plane)
    (buffer : wld_buffer) (hfail : (attach env plane buffer).ret ≠ 0) :
    (attach env plane buffer).plane = plane := by
  cases hres : (attach_framebuffer env buffer).ret with
  | error e => rw [attach_error_path env plane buffer e hres]
  | ok id =>
    cases hneed : plane.need_modeset with
    | false => rw [attach_flip_path env plane buffer id hres hneed]
    | true =>
      rw [attach_modeset_path env plane buffer id hres hneed] at hfail ⊢
      by_cases hset : env.drmModeSetCrtc = 0
      · rw [if_pos hset] at hfail
        exact absurd rfl hfail
      · rw [if_neg hset]

/-- C2: if `attach` returns a non-zero code, `need_modeset` has the value it had
before the call.  In particular, (a) when `need_modeset` is set, the buffer
resolves and `drmModeSetCrtc` answers non-zero, `attach` fails with that code,
`need_modeset` is still set, and the following `attach` with a resolvable buffer
issues one `drmModeSetCrtc` and no `drmModePageFlip`; (b) when `need_modeset`
is clear, the buffer resolves and `drmModePageFlip` answers a negative code,
`attach` fails with that code and `need_modeset` is still clear. -/
theorem failed_attach_keeps_need_modeset (env : AttachEnv) (plane : framebuffer_plane)
    (buffer : wld_buffer) :
    ((attach env plane buffer).ret ≠ 0 →
      (attach env plane buffer).plane.need_modeset = plane.need_modeset) ∧
    (∀ id, (attach_framebuffer env buffer).ret = .ok id → plane.need_modeset = true →
      env.drmModeSetCrtc ≠ 0 →
        (attach env plane buffer).ret = env.drmModeSetCrtc ∧
        (attach env plane buffer).ret ≠ 0 ∧
        (attach env plane buffer).plane.need_modeset = true ∧
        ∀ (env2 : AttachEnv) (buffer2 : wld_buffer) (id2 : Nat),
          (attach_framebuffer env2 buffer2).ret = .ok id2 →
            (attach env2 (attach env plane buffer).plane buffer2).calls.countP
              Call.isSetCrtc = 1 ∧
            (attach env2 (attach env plane buffer).plane buffer2).calls.countP
              Call.isPageFlip = 0) ∧
    (∀ id, (attach_framebuffer env buffer).ret = .ok id → plane.need_modeset = false →
      env.drmModePageFlip < 0 →
        (attach env plane buffer).ret = env.drmModePageFlip ∧
        (attach env plane buffer).ret ≠ 0 ∧
        (attach env plane buffer).plane.need_modeset = false) := by
  refine ⟨fun hfail => by rw [attach_failure_plane env plane buffer hfail], ?_, ?_⟩
  · intro id hres hneed hset
    have hpath := attach_modeset_path env plane buffer id hres hneed
    rw [if_neg hset] at hpath
    have hplane : (attach env plane buffer).plane = plane := by rw [hpath]
    refine ⟨by rw [hpath], by rw [hpath]; exact hset, by rw [hplane]; exact hneed, ?_⟩
    intro env2 buffer2 id2 hres2
    rw [hplane]
    exact attach_modeset_counts env2 plane buffer2 id2 hres2 hneed
  · intro id hres hneed hflip
    have hpath := attach_flip_path env plane buffer id hres hneed
    rw [if_pos hflip] at hpath
    refine ⟨by rw [hpath], by rw [hpath]; exact Int.ne_of_lt hflip, by rw [hpath]; exact hneed⟩

/-- C2 evaluated: a refused mode-set on the sample plane, followed by another
attach; and a refused page-flip on the same plane once it is flipping. -/
theorem failed_attach_keeps_need_modeset_witness :
    ((attach (sample_env_refused 31) sample_plane (sample_buffer 3)).ret ≠ 0 ∧
      (attach (sample_env_refused 31) sample_plane (sample_buffer 3)).plane.need_modeset
        = sample_plane.need_modeset) ∧
    ((attach (sample_env_refused 31) sample_plane (sample_buffer 3)).ret = -13 ∧
      (attach (sample_env_refused 31) sample_plane (sample_buffer 3)).plane.need_modeset = true ∧
      (attach (sample_env 32)
        (attach (sample_env_refused 31) sample_plane (sample_buffer 3)).plane
        (sample_buffer 4)).calls.countP Call.isSetCrtc = 1 ∧
      (attach (sample_env 32)
        (attach (sample_env_refused 31) sample_plane (sample_buffer 3)).plane
        (sample_buffer 4)).calls.countP Call.isPageFlip = 0) ∧
    ((attach (sample_env_refused 33)
        (attach (sample_env 31) sample_plane (sample_buffer 3)).plane (sample_buffer 4)).ret
        = -13 ∧
      (attach (sample_env_refused 33)
        (attach (sample_env 31) sample_plane (sample_buffer 3)).plane
        (sample_buffer 4)).plane.need_modeset = false) :=
  ⟨⟨by decide,
      (failed_attach_keeps_need_modeset (sample_env_refused 31) sample_plane
        (sample_buffer 3)).1 (by decide)⟩,
    ⟨((failed_attach_keeps_need_modeset (sample_env_refused 31) sample_plane
        (sample_buffer 3)).2.1 31 rfl rfl (by decide)).1,
      ((failed_attach_keeps_need_modeset (sample_env_refused 31) sample_plane
        (sample_buffer 3)).2.1 31 rfl rfl (by decide)).2.2.1,
      ((failed_attach_keeps_need_modeset (sample_env_refused 31) sample_plane
        (sample_buffer 3)).2.1 31 rfl rfl (by decide)).2.2.2 (sample_env 32)
          (sample_buffer 4) 32 rfl⟩,
    ⟨((failed_attach_keeps_need_modeset (sample_env_refused 33)
        (attach (sample_env 31) sample_plane (sample_buffer 3)).plane
        (sample_buffer 4)).2.2 33 rfl rfl (by decide)).1,
      ((failed_attach_keeps_need_modeset (sample_env_refused 33)
        (attach (sample_env 31) sample_plane (sample_buffer 3)).plane
        (sample_buffer 4)).2.2 33 rfl rfl (by decide)).2.2⟩⟩

/-! ## Activation -/

/-- An `SWC_EVENT_ACTIVATED` event sets `need_modeset`. -/
theorem handle_swc_event_activated (plane : framebuffer_plane) (event : swc_event)
    (hev : event.type = SWC_EVENT_ACTIVATED) :
    (handle_swc_event plane event).need_modeset = true := by
  simp [handle_swc_event, hev]

/-- C3: on a plane whose `need_modeset` is clear, after `handle_swc_event`
receives an event of type `SWC_EVENT_ACTIVATED`, the next `attach` with a
resolvable buffer issues one `drmModeSetCrtc` and no `drmModePageFlip`. -/
theorem activated_forces_modeset (plane : framebuffer_plane) (event : swc_event)
    (env : AttachEnv) (buffer : wld_buffer) (id : Nat)
    (_hflip : plane.need_modeset = false)
    (hev : event.type = SWC_EVENT_ACTIVATED)
    (hres : (attach_framebuffer env buffer).ret = .ok id) :
    (attach env (handle_swc_event plane event) buffer).calls.countP Call.isSetCrtc = 1 ∧
    (attach env (handle_swc_event plane event) buffer).calls.countP Call.isPageFlip = 0 :=
  attach_modeset_counts env _ buffer id hres (handle_swc_event_activated plane event hev)

/-- C3 evaluated: the sample plane after one successful attach is flipping; an
activation event makes the next attach a mode-set. -/
theorem activated_forces_modeset_witness :
    (attach (sample_env 31) sample_plane (sample_buffer 3)).plane.need_modeset = false ∧
    (attach (sample_env 32)
      (handle_swc_event (attach (sample_env 31) sample_plane (sample_buffer 3)).plane
        { type := SWC_EVENT_ACTIVATED }) (sample_buffer 4)).calls.countP Call.isSetCrtc = 1 ∧
    (attach (sample_env 32)
      (handle_swc_event (attach (sample_env 31) sample_plane (sample_buffer 3)).plane
        { type := SWC_EVENT_ACTIVATED }) (sample_buffer 4)).calls.countP Call.isPageFlip = 0 :=
  ⟨rfl, activated_forces_modeset (attach (sample_env 31) sample_plane (sample_buffer 3)).plane
    { type := SWC_EVENT_ACTIVATED } (sample_env 32) (sample_buffer 4) 32 rfl rfl rfl⟩

/-! ## The cases of the resolution step -/

/-- Cache hit: the buffer already exports a framebuffer id. -/
theorem attach_framebuffer_hit (env : AttachEnv) (buffer : wld_buffer) (id : Nat)
    (hfb : wld_export buffer WLD_USER_OBJECT_FRAMEBUFFER = some id) :
    attach_framebuffer env buffer = { ret := .ok id, buffer := buffer, calls := [] } := by
  simp only [attach_framebuffer, hfb]

/-- Miss, and the buffer exports no memory handle. -/
theorem attach_framebuffer_no_handle (env : AttachEnv) (buffer : wld_buffer)
    (hfb : wld_export buffer WLD_USER_OBJECT_FRAMEBUFFER = none)
    (hh : wld_export buffer WLD_DRM_OBJECT_HANDLE = none) :
    attach_framebuffer env buffer =
      { ret := .error (-EINVAL), buffer := buffer, calls := [] } := by
  simp only [attach_framebuffer, hfb, hh]

/-- Miss, and `malloc` fails. -/
theorem attach_framebuffer_no_memory (env : AttachEnv) (buffer : wld_buffer) (handle : Nat)
    (hfb : wld_export buffer WLD_USER_OBJECT_FRAMEBUFFER = none)
    (hh : wld_export buffer WLD_DRM_OBJECT_HANDLE = some handle)
    (hm : env.malloc = false) :
    attach_framebuffer env buffer =
      { ret := .error (-ENOMEM), buffer := buffer, calls := [] } := by
  simp only [attach_framebuffer, hfb, hh, hm, if_true]

/-- Miss, and `drmModeAddFB` answers a negative code. -/
theorem attach_framebuffer_rejected (env : AttachEnv) (buffer : wld_buffer) (handle : Nat)
    (hfb : wld_export buffer WLD_USER_OBJECT_FRAMEBUFFER = none)
    (hh : wld_export buffer WLD_DRM_OBJECT_HANDLE = some handle)
    (hm : env.malloc = true) (hadd : env.drmModeAddFB.1 < 0) :
    attach_framebuffer env buffer =
      { ret := .error env.drmModeAddFB.1, buffer := buffer,
        calls := [Call.drmModeAddFB buffer.width buffer.height 24 32 buffer.pitch handle
          env.drmModeAddFB.1 env.drmModeAddFB.2] } := by
  simp only [attach_framebuffer, hfb, hh, hm, hadd, if_true, Bool.true_eq_false, if_false]

/-- Miss, and `drmModeAddFB` registers a framebuffer: the exporter and the
destructor are linked onto the buffer. -/
theorem attach_framebuffer_created (env : AttachEnv) (buffer : wld_buffer) (handle : Nat)
    (hfb : wld_export buffer WLD_USER_OBJECT_FRAMEBUFFER = none)
    (hh : wld_export buffer WLD_DRM_OBJECT_HANDLE = some handle)
    (hm : env.malloc = true) (hadd : ¬ env.drmModeAddFB.1 < 0) :
    attach_framebuffer env buffer =
      { ret := .ok env.drmModeAddFB.2,
        buffer := wld_buffer_add_destructor
          (wld_buffer_add_exporter buffer (.framebuffer { id := env.drmModeAddFB.2 }))
          (.framebuffer { id := env.drmModeAddFB.2 }),
        calls := [Call.drmModeAddFB buffer.width buffer.height 24 32 buffer.pitch handle
          env.drmModeAddFB.1 env.drmModeAddFB.2] } := by
  simp only [attach_framebuffer, hfb, hh, hm, hadd, Bool.true_eq_false, if_false]

/-- A failed resolution leaves the buffer as it was and found no cached id. -/
theorem attach_framebuffer_error (env : AttachEnv) (buffer : wld_buffer) (e : Int)
    (hres : (attach_framebuffer env buffer).ret = .error e) :
    (attach_framebuffer env buffer).buffer = buffer ∧
    wld_export buffer WLD_USER_OBJECT_FRAMEBUFFER = none := by
  cases hfb : wld_export buffer WLD_USER_OBJECT_FRAMEBUFFER with
  | some id =>
    rw [attach_framebuffer_hit env buffer id hfb] at hres
    cases hres
  | none =>
    refine ⟨?_, rfl⟩
    cases hh : wld_export buffer WLD_DRM_OBJECT_HANDLE with
    | none => rw [attach_framebuffer_no_handle env buffer hfb hh]
    | some handle =>
      cases hm : env.malloc with
      | false => rw [attach_framebuffer_no_memory env buffer handle hfb hh hm]
      | true =>
        by_cases hadd : env.drmModeAddFB.1 < 0
        · rw [attach_framebuffer_rejected env buffer handle hfb hh hm hadd]
        · rw [attach_framebuffer_created env buffer handle hfb hh hm hadd] at hres
          cases hres

/-! ## Attach on a buffer that does not resolve -/

/-- C9: when the resolution of the framebuffer id fails with code `e`, `attach`
returns `e`, leaves plane and buffer (its exporters and destructors included)
as they were, and issues neither `drmModeSetCrtc` nor `drmModePageFlip` nor an
idle task.  If the buffer exports neither a framebuffer id nor a memory
handle, `attach` returns `-EINVAL` and makes no call at all.  If
`drmModeAddFB` answers a negative code `r`, `attach` returns `r` and the
rejected `drmModeAddFB` is the only call made. -/
theorem attach_propagates_resolution_failure (env : AttachEnv) (plane : framebuffer_plane)
    (buffer : wld_buffer) :
    (∀ e, (attach_framebuffer env buffer).ret = .error e →
      (attach env plane buffer).ret = e ∧
      (attach env plane buffer).plane = plane ∧
      (attach env plane buffer).buffer = buffer ∧
      (attach env plane buffer).calls.countP Call.isSetCrtc = 0 ∧
      (attach env plane buffer).calls.countP Call.isPageFlip = 0 ∧
      (attach env plane buffer).calls.countP Call.isAddIdle = 0) ∧
    (wld_export buffer WLD_USER_OBJECT_FRAMEBUFFER = none →
      wld_export buffer WLD_DRM_OBJECT_HANDLE = none →
        (attach env plane buffer).ret = -EINVAL ∧
        (attach env plane buffer).calls = [] ∧
        (attach env plane buffer).buffer = buffer ∧
        (attach env plane buffer).plane = plane) ∧
    (∀ handle, wld_export buffer WLD_USER_OBJECT_FRAMEBUFFER = none →
      wld_export buffer WLD_DRM_OBJECT_HANDLE = some handle →
      env.malloc = true → env.drmModeAddFB.1 < 0 →
        (attach env plane buffer).ret = env.drmModeAddFB.1 ∧
        (attach env plane buffer).calls =
          [Call.drmModeAddFB buffer.width buffer.height 24 32 buffer.pitch handle
            env.drmModeAddFB.1 env.drmModeAddFB.2] ∧
        (attach env plane buffer).buffer = buffer ∧
        (attach env plane buffer).plane = plane) := by
  refine ⟨?_, ?_, ?_⟩
  · intro e hres
    rw [attach_error_path env plane buffer e hres]
    exact ⟨rfl, rfl, (attach_framebuffer_error env buffer e hres).1,
      attach_framebuffer_no_setcrtc env buffer, attach_framebuffer_no_pageflip env buffer,
      attach_framebuffer_no_idle env buffer⟩
  · intro hfb hh
    have hr := attach_framebuffer_no_handle env buffer hfb hh
    rw [attach_error_path env plane buffer (-EINVAL) (by rw [hr]), hr]
    exact ⟨rfl, rfl, rfl, rfl⟩
  · intro handle hfb hh hm hadd
    have hr := attach_framebuffer_rejected env buffer handle hfb hh hm hadd
    rw [attach_error_path env plane buffer env.drmModeAddFB.1 (by rw [hr]), hr]
    exact ⟨rfl, rfl, rfl, rfl⟩

/-- C9 evaluated: a buffer without a memory handle, and a DRM buffer whose
`drmModeAddFB` is rejected with -22, both on the sample plane. -/
theorem attach_propagates_resolution_failure_witness :
    ((attach (sample_env 31) sample_plane sample_shm_buffer).ret = -EINVAL ∧
      (attach (sample_env 31) sample_plane sample_shm_buffer).calls = [] ∧
      (attach (sample_env 31) sample_plane sample_shm_buffer).buffer = sample_shm_buffer ∧
      (attach (sample_env 31) sample_plane sample_shm_buffer).plane = sample_plane) ∧
    ((attach sample_env_addfb_rejected sample_plane (sample_buffer 3)).ret = -22 ∧
      (attach sample_env_addfb_rejected sample_plane (sample_buffer 3)).calls =
        [Call.drmModeAddFB 1920 1080 24 32 7680 3 (-22) 0] ∧
      (attach sample_env_addfb_rejected sample_plane (sample_buffer 3)).buffer
        = sample_buffer 3 ∧
      (attach sample_env_addfb_rejected sample_plane (sample_buffer 3)).plane
        = sample_plane) ∧
    ((attach sample_env_addfb_rejected sample_plane (sample_buffer 3)).calls.countP
        Call.isSetCrtc = 0 ∧
      (attach sample_env_addfb_rejected sample_plane (sample_buffer 3)).calls.countP
        Call.isPageFlip = 0) :=
  ⟨(attach_propagates_resolution_failure (sample_env 31) sample_plane sample_shm_buffer).2.1
      rfl rfl,
    (attach_propagates_resolution_failure sample_env_addfb_rejected sample_plane
      (sample_buffer 3)).2.2 3 rfl rfl rfl (by decide),
    ((attach_propagates_resolution_failure sample_env_addfb_rejected sample_plane
      (sample_buffer 3)).1 (-22) rfl).2.2.2.1,
    ((attach_propagates_resolution_failure sample_env_addfb_rejected sample_plane
      (sample_buffer 3)).1 (-22) rfl).2.2.2.2.1⟩

/-! ## The framebuffer handle cache -/

/-- The buffer `attach` leaves behind is the one the resolution step leaves behind. -/
theorem attach_buffer (env : AttachEnv) (plane : framebuffer_plane) (buffer : wld_buffer) :
    (attach env plane buffer).buffer = (attach_framebuffer env buffer).buffer := by
  cases hres : (attach_framebuffer env buffer).ret with
  | error e => rw [attach_error_path env plane buffer e hres]
  | ok id =>
    cases hneed : plane.need_modeset with
    | false => rw [attach_flip_path env plane buffer id hres hneed]
    | true =>
      rw [attach_modeset_path env plane buffer id hres hneed]
      split <;> rfl

/-- The `drmModeAddFB` calls of `attach` are those of its resolution step. -/
theorem attach_addfb (env : AttachEnv) (plane : framebuffer_plane) (buffer : wld_buffer) :
    addfb_ids (attach env plane buffer).calls = addfb_ids (attach_framebuffer env buffer).calls ∧
    (attach env plane buffer).calls.countP Call.isAddFB =
      (attach_framebuffer env buffer).calls.countP Call.isAddFB := by
  cases hres : (attach_framebuffer env buffer).ret with
  | error e => rw [attach_error_path env plane buffer e hres]; exact ⟨rfl, rfl⟩
  | ok id =>
    cases hneed : plane.need_modeset with
    | false =>
      rw [attach_flip_path env plane buffer id hres hneed]
      simp [addfb_ids, List.filterMap_append, List.countP_append, List.countP_cons,
        Call.isAddFB]
    | true =>
      rw [attach_modeset_path env plane buffer id hres hneed]
      split <;>
        simp [addfb_ids, List.filterMap_append, List.countP_append, List.countP_cons,
          Call.isAddFB]

/-- After a miss that registers a framebuffer, the buffer exports its id. -/
theorem wld_export_after_add (buffer : wld_buffer) (fb : framebuffer) :
    wld_export (wld_buffer_add_destructor (wld_buffer_add_exporter buffer (.framebuffer fb))
      (.framebuffer fb)) WLD_USER_OBJECT_FRAMEBUFFER = some fb.id := by
  simp [wld_export, wld_buffer_add_destructor, wld_buffer_add_exporter, wld_exporter.call,
    framebuffer_export]

/-- A successful resolution leaves a buffer that exports the resolved id. -/
theorem attach_framebuffer_ok_exports (env : AttachEnv) (buffer : wld_buffer) (id : Nat)
    (hres : (attach_framebuffer env buffer).ret = .ok id) :
    wld_export (attach_framebuffer env buffer).buffer WLD_USER_OBJECT_FRAMEBUFFER = some id := by
  cases hfb : wld_export buffer WLD_USER_OBJECT_FRAMEBUFFER with
  | some id0 =>
    rw [attach_framebuffer_hit env buffer id0 hfb] at hres ⊢
    cases hres
    exact hfb
  | none =>
    cases hh : wld_export buffer WLD_DRM_OBJECT_HANDLE with
    | none =>
      rw [attach_framebuffer_no_handle env buffer hfb hh] at hres
      cases hres
    | some handle =>
      cases hm : env.malloc with
      | false =>
        rw [attach_framebuffer_no_memory env buffer handle hfb hh hm] at hres
        cases hres
      | true =>
        by_cases hadd : env.drmModeAddFB.1 < 0
        · rw [attach_framebuffer_rejected env buffer handle hfb hh hm hadd] at hres
          cases hres
        · rw [attach_framebuffer_created env buffer handle hfb hh hm hadd] at hres ⊢
          cases hres
          exact wld_export_after_add buffer _

/-- A successful resolution on a buffer without a cached id made exactly one
`drmModeAddFB` call and linked the exporter for the resolved id at the head of
the buffer's list. -/
theorem attach_framebuffer_miss_ok (env : AttachEnv) (buffer : wld_buffer) (id : Nat)
    (hfb : wld_export buffer WLD_USER_OBJECT_FRAMEBUFFER = none)
    (hres : (attach_framebuffer env buffer).ret = .ok id) :
    (attach_framebuffer env buffer).calls.countP Call.isAddFB = 1 ∧
    (attach_framebuffer env buffer).buffer.exporters
      = .framebuffer { id := id } :: buffer.exporters := by
  cases hh : wld_export buffer WLD_DRM_OBJECT_HANDLE with
  | none =>
    rw [attach_framebuffer_no_handle env buffer hfb hh] at hres
    cases hres
  | some handle =>
    cases hm : env.malloc with
    | false =>
      rw [attach_framebuffer_no_memory env buffer handle hfb hh hm] at hres
      cases hres
    | true =>
      by_cases hadd : env.drmModeAddFB.1 < 0
      · rw [attach_framebuffer_rejected env buffer handle hfb hh hm hadd] at hres
        cases hres
      · rw [attach_framebuffer_created env buffer handle hfb hh hm hadd] at hres ⊢
        cases hres
        exact ⟨rfl, rfl⟩

/-- C4, as amended: when the first of two successive resolutions on a buffer
succeeds with id `id`, the second succeeds with the same id, makes no call and
leaves the buffer alone.  If the buffer did not export a framebuffer id
before the first resolution, the two resolutions issue exactly one
`drmModeAddFB` in total and the second is answered by `framebuffer_export` of
the exporter the first one linked at the head of the list; if it already
exported one, they issue no `drmModeAddFB` at all. -/
theorem resolve_twice_same_id (env1 env2 : AttachEnv) (buffer : wld_buffer) (id : Nat)
    (hres : (attach_framebuffer env1 buffer).ret = .ok id) :
    (attach_framebuffer env2 (attach_framebuffer env1 buffer).buffer).ret = .ok id ∧
    (attach_framebuffer env2 (attach_framebuffer env1 buffer).buffer).calls = [] ∧
    (attach_framebuffer env2 (attach_framebuffer env1 buffer).buffer).buffer
      = (attach_framebuffer env1 buffer).buffer ∧
    (wld_export buffer WLD_USER_OBJECT_FRAMEBUFFER = none →
      ((attach_framebuffer env1 buffer).calls ++
        (attach_framebuffer env2 (attach_framebuffer env1 buffer).buffer).calls).countP
          Call.isAddFB = 1 ∧
      (attach_framebuffer env1 buffer).buffer.exporters
        = .framebuffer { id := id } :: buffer.exporters ∧
      wld_export (attach_framebuffer env1 buffer).buffer WLD_USER_OBJECT_FRAMEBUFFER
        = framebuffer_export { id := id } WLD_USER_OBJECT_FRAMEBUFFER) ∧
    (wld_export buffer WLD_USER_OBJECT_FRAMEBUFFER ≠ none →
      ((attach_framebuffer env1 buffer).calls ++
        (attach_framebuffer env2 (attach_framebuffer env1 buffer).buffer).calls).countP
          Call.isAddFB = 0) := by
  have hexp := attach_framebuffer_ok_exports env1 buffer id hres
  have h2 := attach_framebuffer_hit env2 _ id hexp
  refine ⟨by rw [h2], by rw [h2], by rw [h2], ?_, ?_⟩
  · intro hfb
    have hm := attach_framebuffer_miss_ok env1 buffer id hfb hres
    refine ⟨?_, hm.2, ?_⟩
    · rw [h2]
      simpa using hm.1
    · rw [hexp]
      simp [framebuffer_export]
  · intro hfb
    obtain ⟨id0, hid0⟩ := Option.ne_none_iff_exists'.mp hfb
    rw [h2, attach_framebuffer_hit env1 buffer id0 hid0]
    rfl

/-- C4 evaluated on a new DRM buffer: one `drmModeAddFB`, id 31 both times. -/
theorem resolve_twice_same_id_witness :
    (attach_framebuffer (sample_env 31) (sample_buffer 3)).ret = .ok 31 ∧
    (attach_framebuffer (sample_env 32)
      (attach_framebuffer (sample_env 31) (sample_buffer 3)).buffer).ret = .ok 31 ∧
    ((attach_framebuffer (sample_env 31) (sample_buffer 3)).calls ++
      (attach_framebuffer (sample_env 32)
        (attach_framebuffer (sample_env 31) (sample_buffer 3)).buffer).calls).countP
          Call.isAddFB = 1 :=
  ⟨rfl,
    (resolve_twice_same_id (sample_env 31) (sample_env 32) (sample_buffer 3) 31 rfl).1,
    ((resolve_twice_same_id (sample_env 31) (sample_env 32) (sample_buffer 3) 31
      rfl).2.2.2.1 rfl).1⟩

/-- C4 as stated fails on a buffer that has been scanned out before: two
successive resolutions succeed with id 31 both times, and they issue no
`drmModeAddFB` call, not one. -/
theorem resolve_twice_cached_no_addfb :
    (attach_framebuffer (sample_env 32) sample_scanned_buffer).ret = .ok 31 ∧
    (attach_framebuffer (sample_env 33)
      (attach_framebuffer (sample_env 32) sample_scanned_buffer).buffer).ret = .ok 31 ∧
    ((attach_framebuffer (sample_env 32) sample_scanned_buffer).calls ++
      (attach_framebuffer (sample_env 33)
        (attach_framebuffer (sample_env 32) sample_scanned_buffer).buffer).calls).countP
          Call.isAddFB = 0 ∧
    ((attach_framebuffer (sample_env 32) sample_scanned_buffer).calls ++
      (attach_framebuffer (sample_env 33)
        (attach_framebuffer (sample_env 32) sample_scanned_buffer).buffer).calls).countP
          Call.isAddFB ≠ 1 :=
  ⟨rfl, rfl, rfl, by decide⟩

/-! ## Destroying a buffer -/

/-- The `drmModeRmFB` calls made when a buffer is destroyed name the ids of the
framebuffer destructors on its list, in list order. -/
theorem rmfb_ids_destroy (buffer : wld_buffer) :
    rmfb_ids (wld_buffer_destroy buffer) = (fb_destructors buffer).map framebuffer.id := by
  unfold wld_buffer_destroy fb_destructors
  induction buffer.destructors with
  | nil => rfl
  | cons d ds ih =>
    cases d with
    | framebuffer fb =>
      simp only [List.map_cons, List.flatten_cons, List.filterMap_cons]
      simp only [rmfb_ids] at ih ⊢
      simp only [wld_destructor.call, framebuffer_destroy, List.singleton_append,
        List.filterMap_cons, List.map_cons, ih]
    | foreign tag =>
      simp only [List.map_cons, List.flatten_cons, List.filterMap_cons]
      simp only [rmfb_ids] at ih ⊢
      simp only [wld_destructor.call, List.singleton_append, List.filterMap_cons, ih]

/-- Once a buffer exports a framebuffer id, further `attach` calls neither
change it nor issue `drmModeAddFB`. -/
theorem attach_seq_cached (steps : List (AttachEnv × framebuffer_plane)) (buffer : wld_buffer)
    (id : Nat) (hfb : wld_export buffer WLD_USER_OBJECT_FRAMEBUFFER = some id) :
    (attach_seq steps buffer).1 = buffer ∧ addfb_ids (attach_seq steps buffer).2 = [] := by
  induction steps with
  | nil => exact ⟨rfl, rfl⟩
  | cons st rest ih =>
    obtain ⟨env, plane⟩ := st
    have hb : (attach env plane buffer).buffer = buffer := by
      rw [attach_buffer, attach_framebuffer_hit env buffer id hfb]
    have hc : addfb_ids (attach env plane buffer).calls = [] := by
      rw [(attach_addfb env plane buffer).1, attach_framebuffer_hit env buffer id hfb]
      rfl
    simp only [attach_seq, hb]
    refine ⟨ih.1, ?_⟩
    simp only [addfb_ids] at hc ih ⊢
    rw [List.filterMap_append, hc, ih.2]
    rfl

/-- From a buffer that carries no framebuffer handle, any sequence of `attach`
calls leaves at most one handle on it, with its exporter and its destructor
both linked, and that handle holds the id of the one `drmModeAddFB` call that
was not rejected. -/
theorem attach_seq_handles (steps : List (AttachEnv × framebuffer_plane)) (buffer : wld_buffer)
    (hexp : fb_exporters buffer = []) (hdes : fb_destructors buffer = []) :
    fb_exporters (attach_seq steps buffer).1
      = (addfb_ids (attach_seq steps buffer).2).map framebuffer.mk ∧
    fb_destructors (attach_seq steps buffer).1 = fb_exporters (attach_seq steps buffer).1 ∧
    (addfb_ids (attach_seq steps buffer).2).length ≤ 1 := by
  induction steps generalizing buffer with
  | nil => simp [attach_seq, hexp, hdes, addfb_ids]
  | cons st rest ih =>
    obtain ⟨env, plane⟩ := st
    have hsplit : addfb_ids (attach_seq ((env, plane) :: rest) buffer).2 =
        addfb_ids (attach_framebuffer env buffer).calls ++
          addfb_ids (attach_seq rest (attach_framebuffer env buffer).buffer).2 := by
      simp only [attach_seq, attach_buffer]
      rw [← (attach_addfb env plane buffer).1]
      simp only [addfb_ids, List.filterMap_append]
    have hbuf : (attach_seq ((env, plane) :: rest) buffer).1 =
        (attach_seq rest (attach_framebuffer env buffer).buffer).1 := by
      simp only [attach_seq, attach_buffer]
    rw [hsplit, hbuf]
    cases hfb : wld_export buffer WLD_USER_OBJECT_FRAMEBUFFER with
    | some id0 =>
      rw [attach_framebuffer_hit env buffer id0 hfb]
      have hc := attach_seq_cached rest buffer id0 hfb
      rw [hc.1, hc.2, hexp, hdes]
      simp [addfb_ids]
    | none =>
      cases hh : wld_export buffer WLD_DRM_OBJECT_HANDLE with
      | none =>
        rw [attach_framebuffer_no_handle env buffer hfb hh]
        simpa [addfb_ids] using ih buffer hexp hdes
      | some handle =>
        cases hm : env.malloc with
        | false =>
          rw [attach_framebuffer_no_memory env buffer handle hfb hh hm]
          simpa [addfb_ids] using ih buffer hexp hdes
        | true =>
          by_cases hadd : env.drmModeAddFB.1 < 0
          · rw [attach_framebuffer_rejected env buffer handle hfb hh hm hadd]
            simpa [addfb_ids, hadd] using ih buffer hexp hdes
          · rw [attach_framebuffer_created env buffer handle hfb hh hm hadd]
            have hc := attach_seq_cached rest _ _
              (wld_export_after_add buffer { id := env.drmModeAddFB.2 })
            rw [hc.1, hc.2]
            simp only [fb_exporters, fb_destructors] at hexp hdes
            simp [addfb_ids, hadd, fb_exporters, fb_destructors, wld_buffer_add_destructor,
              wld_buffer_add_exporter, hexp, hdes]

/-- C5, as amended: on a buffer that starts without a framebuffer handle, after
any sequence of `attach` calls the buffer carries at most one handle (one
exporter and the matching destructor).  Destroying the buffer issues one
`drmModeRmFB` per handle, hence at most one: exactly one, naming the id stored
by the `drmModeAddFB` call that was not rejected, when there was such a call,
and none when there was not. -/
theorem destroy_removes_framebuffer_at_most_once
    (steps : List (AttachEnv × framebuffer_plane)) (buffer : wld_buffer)
    (hexp : fb_exporters buffer = []) (hdes : fb_destructors buffer = []) :
    (fb_exporters (attach_seq steps buffer).1).length ≤ 1 ∧
    fb_destructors (attach_seq steps buffer).1 = fb_exporters (attach_seq steps buffer).1 ∧
    rmfb_ids (wld_buffer_destroy (attach_seq steps buffer).1)
      = addfb_ids (attach_seq steps buffer).2 ∧
    (rmfb_ids (wld_buffer_destroy (attach_seq steps buffer).1)).length ≤ 1 ∧
    (∀ id ∈ addfb_ids (attach_seq steps buffer).2,
      rmfb_ids (wld_buffer_destroy (attach_seq steps buffer).1) = [id]) ∧
    (addfb_ids (attach_seq steps buffer).2 = [] →
      rmfb_ids (wld_buffer_destroy (attach_seq steps buffer).1) = []) := by
  obtain ⟨h1, h2, h3⟩ := attach_seq_handles steps buffer hexp hdes
  have hrm : rmfb_ids (wld_buffer_destroy (attach_seq steps buffer).1)
      = addfb_ids (attach_seq steps buffer).2 := by
    have hid : framebuffer.id ∘ framebuffer.mk = id := rfl
    rw [rmfb_ids_destroy, h2, h1, List.map_map, hid, List.map_id]
  refine ⟨by rw [h1, List.length_map]; exact h3, h2, hrm, by rw [hrm]; exact h3, ?_, ?_⟩
  · intro id hid
    rw [hrm]
    cases hl : addfb_ids (attach_seq steps buffer).2 with
    | nil =>
      rw [hl] at hid
      cases hid
    | cons a t =>
      rw [hl] at hid h3
      cases t with
      | nil =>
        rw [List.mem_singleton] at hid
        rw [hid]
      | cons b u =>
        simp at h3
  · intro hnil
    rw [hrm, hnil]

/-- C5 evaluated on a new DRM buffer attached three times (the first
`drmModeAddFB` is rejected, the second stores id 31, the third attach is a
cache hit): destroying it issues the single call `drmModeRmFB(31)`. -/
theorem destroy_removes_framebuffer_at_most_once_witness :
    (fb_exporters (sample_buffer 3) = [] ∧ fb_destructors (sample_buffer 3) = []) ∧
    addfb_ids (attach_seq [(sample_env_addfb_rejected, sample_plane),
      (sample_env 31, sample_plane), (sample_env 32, sample_plane)] (sample_buffer 3)).2
        = [31] ∧
    rmfb_ids (wld_buffer_destroy (attach_seq [(sample_env_addfb_rejected, sample_plane),
      (sample_env 31, sample_plane), (sample_env 32, sample_plane)] (sample_buffer 3)).1)
        = [31] :=
  ⟨⟨rfl, rfl⟩, rfl,
    (destroy_removes_framebuffer_at_most_once [(sample_env_addfb_rejected, sample_plane),
      (sample_env 31, sample_plane), (sample_env 32, sample_plane)] (sample_buffer 3)
      rfl rfl).2.2.2.2.1 31 (by decide)⟩

/-- C5 as stated fails on a sequence of attach calls that never registers a
framebuffer: the new DRM buffer is attached once, `drmModeAddFB` is rejected
and `attach` returns -22; the buffer carries no handle, and destroying it
issues no `drmModeRmFB` call, not one.  The same holds for the empty
sequence. -/
theorem destroy_without_framebuffer_no_rmfb :
    (attach sample_env_addfb_rejected sample_plane (sample_buffer 3)).ret = -22 ∧
    fb_exporters (attach_seq [(sample_env_addfb_rejected, sample_plane)]
      (sample_buffer 3)).1 = [] ∧
    rmfb_ids (wld_buffer_destroy (attach_seq [(sample_env_addfb_rejected, sample_plane)]
      (sample_buffer 3)).1) = [] ∧
    (rmfb_ids (wld_buffer_destroy (attach_seq [(sample_env_addfb_rejected, sample_plane)]
      (sample_buffer 3)).1)).length ≠ 1 ∧
    rmfb_ids (wld_buffer_destroy (attach_seq [] (sample_buffer 3)).1) = [] :=
  ⟨rfl, rfl, rfl, by decide, rfl⟩

/-! ## Construction and teardown -/

/-- Apart from `need_modeset`, `attach` leaves every field of the plane alone. -/
theorem attach_plane_fields (env : AttachEnv) (plane : framebuffer_plane)
    (buffer : wld_buffer) :
    (attach env plane buffer).plane =
      { plane with need_modeset := (attach env plane buffer).plane.need_modeset } := by
  cases hres : (attach_framebuffer env buffer).ret with
  | error e => rw [attach_error_path env plane buffer e hres]
  | ok id =>
    cases hneed : plane.need_modeset with
    | false => rw [attach_flip_path env plane buffer id hres hneed]
    | true =>
      rw [attach_modeset_path env plane buffer id hres hneed]
      split <;> rfl

/-- No operation changes the CRTC snapshot, the CRTC id, the mode or the
connector array of the plane. -/
theorem step_frame (V : ViewModule) (plane : framebuffer_plane) (op : Op) :
    (step V plane op).1.original_crtc_state = plane.original_crtc_state ∧
    (step V plane op).1.crtc = plane.crtc ∧
    (step V plane op).1.mode = plane.mode ∧
    (step V plane op).1.connectors = plane.connectors := by
  cases op with
  | attach env buffer =>
    simp only [step]
    rw [attach_plane_fields env plane buffer]
    exact ⟨rfl, rfl, rfl, rfl⟩
  | move x y => exact ⟨rfl, rfl, rfl, rfl⟩
  | update => exact ⟨rfl, rfl, rfl, rfl⟩
  | page_flip time => exact ⟨rfl, rfl, rfl, rfl⟩
  | swc_event event =>
    simp only [step, handle_swc_event]
    split <;> exact ⟨rfl, rfl, rfl, rfl⟩
  | send_frame now => exact ⟨rfl, rfl, rfl, rfl⟩

/-- No sequence of operations changes the CRTC snapshot, the CRTC id, the mode
or the connector array of the plane. -/
theorem run_frame (V : ViewModule) (plane : framebuffer_plane) (ops : List Op) :
    (run V plane ops).original_crtc_state = plane.original_crtc_state ∧
    (run V plane ops).crtc = plane.crtc ∧
    (run V plane ops).mode = plane.mode ∧
    (run V plane ops).connectors = plane.connectors := by
  induction ops generalizing plane with
  | nil => exact ⟨rfl, rfl, rfl, rfl⟩
  | cons op rest ih =>
    have hs := step_frame V plane op
    have hr := ih (step V plane op).1
    simp only [run, List.foldl_cons] at hr ⊢
    exact ⟨hr.1.trans hs.1, hr.2.1.trans hs.2.1, hr.2.2.1.trans hs.2.2.1,
      hr.2.2.2.trans hs.2.2.2⟩

/-- What a successful initialization stores in the plane. -/
theorem initialize_ok (V : ViewModule) (ienv : InitEnv) (p0 : framebuffer_plane)
    (crtc : Nat) (mode : swc_mode) (cs : List Nat)
    (hinit : ( framebuffer_plane_initialize V ienv p0 crtc mode cs).ok = true) :
    ∃ st, ienv.drmModeGetCrtc = some st ∧
      ( framebuffer_plane_initialize V ienv p0 crtc mode cs).plane.original_crtc_state
        = some st ∧
      ( framebuffer_plane_initialize V ienv p0 crtc mode cs).calls
        = [Call.drmModeGetCrtc crtc (some st), Call.wl_signal_add] ∧
      ( framebuffer_plane_initialize V ienv p0 crtc mode cs).plane.crtc = crtc ∧
      ( framebuffer_plane_initialize V ienv p0 crtc mode cs).plane.mode = mode ∧
      ( framebuffer_plane_initialize V ienv p0 crtc mode cs).plane.connectors
        = { size := cs.length * 4, data := some cs } := by
  unfold framebuffer_plane_initialize at hinit ⊢
  split at hinit
  · simp at hinit
  · rename_i st hst
    refine ⟨st, hst, ?_⟩
    simp only [hst]
    split at hinit
    · simp at hinit
    · rename_i hadd
      simp [hadd]

/-- C6: after a successful `framebuffer_plane_initialize`, whose
`drmModeGetCrtc` call returned the snapshot `st`, and after any sequence of
attach, move, update, page-flip completion, event and idle deliveries,
the plane still holds `st`, and `framebuffer_plane_finalize` issues exactly one
`drmModeSetCrtc`, with `st.crtc_id`, `st.buffer_id`, `(st.x, st.y)` and
`st.mode`. -/
theorem finalize_restores_snapshot (V : ViewModule) (ienv : InitEnv) (p0 : framebuffer_plane)
    (crtc : Nat) (mode : swc_mode) (cs : List Nat)
    (hinit : ( framebuffer_plane_initialize V ienv p0 crtc mode cs).ok = true) :
    ∃ st, ( framebuffer_plane_initialize V ienv p0 crtc mode cs).calls
        = [Call.drmModeGetCrtc crtc (some st), Call.wl_signal_add] ∧
      ∀ (ops : List Op) (ret : Int),
        (run V ( framebuffer_plane_initialize V ienv p0 crtc mode cs).plane
          ops).original_crtc_state = some st ∧
        framebuffer_plane_finalize ret
          (run V ( framebuffer_plane_initialize V ienv p0 crtc mode cs).plane ops) =
          some [Call.wl_array_release,
                Call.drmModeSetCrtc st.crtc_id st.buffer_id st.x st.y none 0 st.mode ret,
                Call.drmModeFreeCrtc st] := by
  obtain ⟨st, _, hsnap, hcalls, _⟩ := initialize_ok V ienv p0 crtc mode cs hinit
  refine ⟨st, hcalls, fun ops ret => ?_⟩
  have hrun : (run V ( framebuffer_plane_initialize V ienv p0 crtc mode cs).plane
      ops).original_crtc_state = some st := by
    rw [(run_frame V _ ops).1, hsnap]
  refine ⟨hrun, ?_⟩
  simp only [framebuffer_plane_finalize, hrun]

/-- C6 evaluated on the sample plane and session: the CRTC found at
initialization (CRTC 5 showing framebuffer 11 at (16, 8) in a 1024x768 mode)
is what `framebuffer_plane_finalize` sets. -/
theorem finalize_restores_snapshot_witness :
    ( framebuffer_plane_initialize sample_view_module sample_init_env sample_storage 5
      sample_mode [7]).ok = true ∧
    framebuffer_plane_finalize (-13) (run sample_view_module sample_plane sample_ops) =
      some [Call.wl_array_release,
            Call.drmModeSetCrtc 5 11 16 8 none 0
              { clock := 65000, hdisplay := 1024, vdisplay := 768, vrefresh := 60 } (-13),
            Call.drmModeFreeCrtc sample_crtc_state] := by
  refine ⟨rfl, ?_⟩
  obtain ⟨st, hcalls, h⟩ := finalize_restores_snapshot sample_view_module sample_init_env
    sample_storage 5 sample_mode [7] rfl
  have hst : sample_crtc_state = st := by
    have hc : [Call.drmModeGetCrtc 5 (some sample_crtc_state), Call.wl_signal_add]
        = [Call.drmModeGetCrtc 5 (some st), Call.wl_signal_add] := hcalls
    injection hc with hhead _
    injection hhead with _ hopt
    injection hopt
  subst hst
  exact (h sample_ops (-13)).2

/-- C10: on a plane initialized with the connector list `cs`, after any
sequence of operations the plane still stores `cs`, yet the trace of
`framebuffer_plane_finalize` starts with the release of the connector array,
the `drmModeSetCrtc` call comes after it, and every `drmModeSetCrtc` in the
trace carries a NULL connector pointer and count 0. -/
theorem finalize_passes_no_connectors (V : ViewModule) (ienv : InitEnv)
    (p0 : framebuffer_plane) (crtc : Nat) (mode : swc_mode) (cs : List Nat) (ops : List Op)
    (ret : Int)
    (hinit : ( framebuffer_plane_initialize V ienv p0 crtc mode cs).ok = true) :
    (run V ( framebuffer_plane_initialize V ienv p0 crtc mode cs).plane ops).connectors
      = { size := cs.length * 4, data := some cs } ∧
    ∃ rest, framebuffer_plane_finalize ret
        (run V ( framebuffer_plane_initialize V ienv p0 crtc mode cs).plane ops)
          = some (Call.wl_array_release :: rest) ∧
      rest.countP Call.isSetCrtc = 1 ∧
      ∀ crtc_id buffer_id x y connectors count info r,
        Call.drmModeSetCrtc crtc_id buffer_id x y connectors count info r
            ∈ Call.wl_array_release :: rest →
          connectors = none ∧ count = 0 := by
  obtain ⟨st, _, hsnap, _, _, _, hconn⟩ := initialize_ok V ienv p0 crtc mode cs hinit
  have hrun := run_frame V ( framebuffer_plane_initialize V ienv p0 crtc mode cs).plane ops
  refine ⟨by rw [hrun.2.2.2, hconn], ?_⟩
  refine ⟨[Call.drmModeSetCrtc st.crtc_id st.buffer_id st.x st.y none 0 st.mode ret,
    Call.drmModeFreeCrtc st], ?_, rfl, ?_⟩
  · simp only [framebuffer_plane_finalize, hrun.1, hsnap]
  · intro crtc_id buffer_id x y connectors count info r hmem
    simp only [List.mem_cons, List.mem_singleton, List.not_mem_nil, or_false] at hmem
    rcases hmem with h | h | h
    · cases h
    · injection h with _ _ _ _ h5 h6
      exact ⟨h5, h6⟩
    · cases h

/-- C10 evaluated on the sample plane, initialized with connectors `[7]`. -/
theorem finalize_passes_no_connectors_witness :
    ( framebuffer_plane_initialize sample_view_module sample_init_env sample_storage 5
      sample_mode [7]).ok = true ∧
    (run sample_view_module sample_plane sample_ops).connectors
      = { size := 4, data := some [7] } ∧
    ∃ rest, framebuffer_plane_finalize 0 (run sample_view_module sample_plane sample_ops)
          = some (Call.wl_array_release :: rest) ∧
      rest.countP Call.isSetCrtc = 1 ∧
      ∀ crtc_id buffer_id x y connectors count info r,
        Call.drmModeSetCrtc crtc_id buffer_id x y connectors count info r
            ∈ Call.wl_array_release :: rest →
          connectors = none ∧ count = 0 :=
  ⟨rfl, finalize_passes_no_connectors sample_view_module sample_init_env sample_storage 5
    sample_mode [7] sample_ops 0 rfl⟩

/-! ## The scenario: a mode-set followed by a page-flip -/

/-- C7: on a plane initialized with CRTC `c`, mode `m` and connectors `cs`, with
buffers `A` and `B` that resolve to `fbA` and `fbB`, a `drmModeSetCrtc` that
answers 0 and a `drmModePageFlip` that is not refused: `attach(A)` returns 0
and, after the resolution of `A`, issues `drmModeSetCrtc(c, fbA, 0, 0, cs,
|cs|, m.info)` and then queues exactly one idle task, `send_frame`, without
delivering a frame notification itself; when the event loop later runs what
`attach(A)` queued, at time `now`, that delivers exactly the frame notification
`view_frame(now)`.  The following `attach(B)` returns 0 and, after the
resolution of `B`, issues only `drmModePageFlip(c, fbB,
DRM_MODE_PAGE_FLIP_EVENT)`: it queues no idle task, so the event loop has
nothing to deliver for it, and it delivers no frame notification;
`handle_page_flip` at time `t` delivers the frame notification with time `t`. -/
theorem modeset_then_flip (V : ViewModule) (ienv : InitEnv) (p0 : framebuffer_plane)
    (c : Nat) (m : swc_mode) (cs : List Nat) (envA envB : AttachEnv) (A B : wld_buffer)
    (fbA fbB t : Nat)
    (hinit : ( framebuffer_plane_initialize V ienv p0 c m cs).ok = true)
    (hA : (attach_framebuffer envA A).ret = .ok fbA)
    (hset : envA.drmModeSetCrtc = 0)
    (hB : (attach_framebuffer envB B).ret = .ok fbB)
    (hflip : 0 ≤ envB.drmModePageFlip) :
    ((attach envA ( framebuffer_plane_initialize V ienv p0 c m cs).plane A).ret = 0 ∧
      (attach envA ( framebuffer_plane_initialize V ienv p0 c m cs).plane A).calls =
        (attach_framebuffer envA A).calls ++
          [Call.drmModeSetCrtc c fbA 0 0 (some cs) cs.length m.info 0,
           Call.wl_event_loop_add_idle .send_frame] ∧
      (attach envA ( framebuffer_plane_initialize V ienv p0 c m cs).plane A).calls.countP
        Call.isAddIdle = 1 ∧
      (attach envA ( framebuffer_plane_initialize V ienv p0 c m cs).plane A).calls.countP
        Call.isViewFrame = 0 ∧
      queued_idle (attach envA ( framebuffer_plane_initialize V ienv p0 c m cs).plane A).calls
        = [idle_callback.send_frame] ∧
      ∀ (now : Nat) (q : framebuffer_plane),
        dispatch_idle now q
          (attach envA ( framebuffer_plane_initialize V ienv p0 c m cs).plane A).calls
            = [Call.view_frame now]) ∧
    ((attach envB (attach envA ( framebuffer_plane_initialize V ienv p0 c m cs).plane A).plane
        B).ret = 0 ∧
      (attach envB (attach envA ( framebuffer_plane_initialize V ienv p0 c m cs).plane A).plane
        B).calls = (attach_framebuffer envB B).calls ++
          [Call.drmModePageFlip c fbB DRM_MODE_PAGE_FLIP_EVENT envB.drmModePageFlip] ∧
      (attach envB (attach envA ( framebuffer_plane_initialize V ienv p0 c m cs).plane A).plane
        B).calls.countP Call.isAddIdle = 0 ∧
      (attach envB (attach envA ( framebuffer_plane_initialize V ienv p0 c m cs).plane A).plane
        B).calls.countP Call.isViewFrame = 0 ∧
      ∀ (now : Nat) (q : framebuffer_plane),
        dispatch_idle now q
          (attach envB
            (attach envA ( framebuffer_plane_initialize V ienv p0 c m cs).plane A).plane
            B).calls = []) ∧
    handle_page_flip
      (attach envB (attach envA ( framebuffer_plane_initialize V ienv p0 c m cs).plane A).plane
        B).plane t = [Call.view_frame t] := by
  obtain ⟨st, _, _, _, hcrtc, hmode, hconn⟩ := initialize_ok V ienv p0 c m cs hinit
  have hneed := initialize_need_modeset V ienv p0 c m cs hinit
  have hA1 := attach_modeset_path envA _ A fbA hA hneed
  rw [if_pos hset, hcrtc, hmode, hconn, hset] at hA1
  have hsz : cs.length * 4 / 4 = cs.length := Nat.mul_div_cancel _ (by decide)
  simp only [hsz] at hA1
  have hB1 := attach_flip_path envB
    (attach envA ( framebuffer_plane_initialize V ienv p0 c m cs).plane A).plane B fbB hB
    (by rw [hA1])
  have hcB : (attach envA ( framebuffer_plane_initialize V ienv p0 c m cs).plane A).plane.crtc
      = c := by rw [hA1]
  rw [if_neg (not_lt.mpr hflip), hcB] at hB1
  have hqA : queued_idle
      (attach envA ( framebuffer_plane_initialize V ienv p0 c m cs).plane A).calls
        = [idle_callback.send_frame] := by
    rw [hA1]
    have hq := attach_framebuffer_queued_idle envA A
    simp only [queued_idle] at hq ⊢
    rw [List.filterMap_append, hq]
    rfl
  have hqB : queued_idle
      (attach envB (attach envA ( framebuffer_plane_initialize V ienv p0 c m cs).plane A).plane
        B).calls = [] := by
    rw [hB1]
    have hq := attach_framebuffer_queued_idle envB B
    simp only [queued_idle] at hq ⊢
    rw [List.filterMap_append, hq]
    rfl
  refine ⟨⟨by rw [hA1], by rw [hA1], ?_, ?_, hqA, ?_⟩,
    ⟨by rw [hB1], by rw [hB1], ?_, ?_, ?_⟩, rfl⟩
  · rw [hA1]
    simp [List.countP_append, attach_framebuffer_no_idle, List.countP_cons, Call.isAddIdle]
  · rw [hA1]
    simp [List.countP_append, attach_framebuffer_no_view_frame, List.countP_cons,
      Call.isViewFrame]
  · intro now q
    simp only [dispatch_idle, hqA]
    rfl
  · rw [hB1]
    simp [List.countP_append, attach_framebuffer_no_idle, List.countP_cons, Call.isAddIdle]
  · rw [hB1]
    simp [List.countP_append, attach_framebuffer_no_view_frame, List.countP_cons,
      Call.isViewFrame]
  · intro now q
    simp only [dispatch_idle, hqB]
    rfl

/-- C7 evaluated on the scenario `initialize(crtc=5, mode=1920x1080,
connectors=[7])`, `attach(A)`, the idle dispatch at time 100, `attach(B)`, the
idle dispatch at time 110 and the flip completion at time 116. -/
theorem modeset_then_flip_witness :
    ((attach (sample_env 31) sample_plane (sample_buffer 3)).ret = 0 ∧
      (attach (sample_env 31) sample_plane (sample_buffer 3)).calls =
        [Call.drmModeAddFB 1920 1080 24 32 7680 3 0 31,
         Call.drmModeSetCrtc 5 31 0 0 (some [7]) 1
           { clock := 148500, hdisplay := 1920, vdisplay := 1080, vrefresh := 60 } 0,
         Call.wl_event_loop_add_idle .send_frame] ∧
      dispatch_idle 100 (attach (sample_env 31) sample_plane (sample_buffer 3)).plane
        (attach (sample_env 31) sample_plane (sample_buffer 3)).calls
          = [Call.view_frame 100]) ∧
    ((attach (sample_env 32) (attach (sample_env 31) sample_plane (sample_buffer 3)).plane
        (sample_buffer 4)).ret = 0 ∧
      (attach (sample_env 32) (attach (sample_env 31) sample_plane (sample_buffer 3)).plane
        (sample_buffer 4)).calls =
        [Call.drmModeAddFB 1920 1080 24 32 7680 4 0 32,
         Call.drmModePageFlip 5 32 DRM_MODE_PAGE_FLIP_EVENT 0] ∧
      dispatch_idle 110
        (attach (sample_env 32) (attach (sample_env 31) sample_plane (sample_buffer 3)).plane
          (sample_buffer 4)).plane
        (attach (sample_env 32) (attach (sample_env 31) sample_plane (sample_buffer 3)).plane
          (sample_buffer 4)).calls = []) ∧
    handle_page_flip
      (attach (sample_env 32) (attach (sample_env 31) sample_plane (sample_buffer 3)).plane
        (sample_buffer 4)).plane 116 = [Call.view_frame 116] :=
  ⟨⟨(modeset_then_flip sample_view_module sample_init_env sample_storage 5 sample_mode [7]
        (sample_env 31) (sample_env 32) (sample_buffer 3) (sample_buffer 4) 31 32 116
        rfl rfl rfl rfl (by decide)).1.1,
      (modeset_then_flip sample_view_module sample_init_env sample_storage 5 sample_mode [7]
        (sample_env 31) (sample_env 32) (sample_buffer 3) (sample_buffer 4) 31 32 116
        rfl rfl rfl rfl (by decide)).1.2.1,
      (modeset_then_flip sample_view_module sample_init_env sample_storage 5 sample_mode [7]
        (sample_env 31) (sample_env 32) (sample_buffer 3) (sample_buffer 4) 31 32 116
        rfl rfl rfl rfl (by decide)).1.2.2.2.2.2 100 _⟩,
    ⟨(modeset_then_flip sample_view_module sample_init_env sample_storage 5 sample_mode [7]
        (sample_env 31) (sample_env 32) (sample_buffer 3) (sample_buffer 4) 31 32 116
        rfl rfl rfl rfl (by decide)).2.1.1,
      (modeset_then_flip sample_view_module sample_init_env sample_storage 5 sample_mode [7]
        (sample_env 31) (sample_env 32) (sample_buffer 3) (sample_buffer 4) 31 32 116
        rfl rfl rfl rfl (by decide)).2.1.2.1,
      (modeset_then_flip sample_view_module sample_init_env sample_storage 5 sample_mode [7]
        (sample_env 31) (sample_env 32) (sample_buffer 3) (sample_buffer 4) 31 32 116
        rfl rfl rfl rfl (by decide)).2.1.2.2.2.2 110 _⟩,
    (modeset_then_flip sample_view_module sample_init_env sample_storage 5 sample_mode [7]
      (sample_env 31) (sample_env 32) (sample_buffer 3) (sample_buffer 4) 31 32 116
      rfl rfl rfl rfl (by decide)).2.2⟩

/-! ## The `need_modeset` flag over time -/

/-- The resolution step contains no successful `drmModeSetCrtc`. -/
theorem attach_framebuffer_no_setcrtc_ok (env : AttachEnv) (buffer : wld_buffer) :
    (attach_framebuffer env buffer).calls.any Call.isSetCrtcOk = false := by
  rcases attach_framebuffer_calls env buffer with h | ⟨_, _, h⟩ <;> rw [h] <;> rfl

/-- `attach` completes a `drmModeSetCrtc` that answers 0 exactly when the
buffer resolves, `need_modeset` is set and `drmModeSetCrtc` answers 0. -/
theorem attach_completes_iff (env : AttachEnv) (plane : framebuffer_plane)
    (buffer : wld_buffer) :
    (attach env plane buffer).calls.any Call.isSetCrtcOk = true ↔
      ∃ id, (attach_framebuffer env buffer).ret = .ok id ∧ plane.need_modeset = true ∧
        env.drmModeSetCrtc = 0 := by
  have hno := attach_framebuffer_no_setcrtc_ok env buffer
  cases hres : (attach_framebuffer env buffer).ret with
  | error e =>
    rw [attach_error_path env plane buffer e hres]
    simp [hno]
  | ok id =>
    cases hneed : plane.need_modeset with
    | false =>
      rw [attach_flip_path env plane buffer id hres hneed]
      simp [hno, Call.isSetCrtcOk]
    | true =>
      rw [attach_modeset_path env plane buffer id hres hneed]
      by_cases hset : env.drmModeSetCrtc = 0
      · rw [if_pos hset]
        simp [hno, Call.isSetCrtcOk, hset]
      · rw [if_neg hset]
        simp [hno, Call.isSetCrtcOk, hset]

/-- `attach` clears `need_modeset` exactly when it completes a successful
`drmModeSetCrtc`, and never sets it. -/
theorem attach_need_modeset (env : AttachEnv) (plane : framebuffer_plane)
    (buffer : wld_buffer) :
    (attach env plane buffer).plane.need_modeset =
      (plane.need_modeset && !(attach env plane buffer).calls.any Call.isSetCrtcOk) := by
  have hno := attach_framebuffer_no_setcrtc_ok env buffer
  cases hres : (attach_framebuffer env buffer).ret with
  | error e =>
    rw [attach_error_path env plane buffer e hres]
    simp [hno]
  | ok id =>
    cases hneed : plane.need_modeset with
    | false =>
      rw [attach_flip_path env plane buffer id hres hneed]
      simp [hneed]
    | true =>
      rw [attach_modeset_path env plane buffer id hres hneed]
      by_cases hset : env.drmModeSetCrtc = 0
      · rw [if_pos hset]
        simp [hno, Call.isSetCrtcOk, hset]
      · rw [if_neg hset]
        simp [hno, Call.isSetCrtcOk, hset, hneed]

/-- How one operation changes `need_modeset`: an activation sets it, a completed
successful mode-set clears it, anything else leaves it. -/
theorem step_need_modeset (V : ViewModule) (plane : framebuffer_plane) (op : Op) :
    (step V plane op).1.need_modeset =
      (op.isActivated || (plane.need_modeset && !completes_modeset V plane op)) := by
  cases op with
  | attach env buffer =>
    simp only [completes_modeset, step, Op.isActivated, Bool.false_or]
    exact attach_need_modeset env plane buffer
  | move x y => simp [completes_modeset, step, Op.isActivated, move]
  | update => simp [completes_modeset, step, Op.isActivated]
  | page_flip time =>
    simp [completes_modeset, step, Op.isActivated, handle_page_flip, Call.isSetCrtcOk]
  | swc_event event =>
    by_cases hev : event.type = SWC_EVENT_ACTIVATED
    · simp [completes_modeset, step, Op.isActivated, handle_swc_event, hev]
    · simp [completes_modeset, step, Op.isActivated, handle_swc_event, hev]
  | send_frame now =>
    simp [completes_modeset, step, Op.isActivated, send_frame, Call.isSetCrtcOk]

/-- Running a sequence extended by one operation. -/
theorem run_append_singleton (V : ViewModule) (plane : framebuffer_plane) (ops : List Op)
    (op : Op) : run V plane (ops ++ [op]) = (step V (run V plane ops) op).1 := by
  simp [run, List.foldl_append]

/-- Splitting a sequence that ends in `x` at one of its elements: the element is
`x` itself, or `x` is the last of the elements after it. -/
theorem split_snoc (pre post ops : List Op) (op x : Op)
    (h : ops ++ [x] = pre ++ op :: post) :
    (post = [] ∧ pre = ops ∧ op = x) ∨
    ∃ post1, post = post1 ++ [x] ∧ ops = pre ++ op :: post1 := by
  rcases List.eq_nil_or_concat post with hp | ⟨post1, y, hp⟩
  · left
    subst hp
    have h1 : ops ++ [x] = pre ++ [op] := h
    have h2 := List.append_inj' h1 rfl
    refine ⟨rfl, h2.1.symm, ?_⟩
    have h3 := h2.2
    injection h3 with h4
    exact h4.symm
  · right
    rw [List.concat_eq_append] at hp
    subst hp
    have h1 : ops ++ [x] = (pre ++ op :: post1) ++ [y] := by
      rw [h]
      simp
    have h2 := List.append_inj' h1 rfl
    have h3 := h2.2
    injection h3 with h4
    subst h4
    exact ⟨post1, rfl, h2.1⟩

/-- After any sequence of operations on a plane that starts with `need_modeset`
set, the flag is clear exactly when some operation of the sequence completed a
successful `drmModeSetCrtc` and no activation event came after it. -/
theorem run_need_modeset (V : ViewModule) (plane : framebuffer_plane)
    (hneed : plane.need_modeset = true) (ops : List Op) :
    (run V plane ops).need_modeset = false ↔
      ∃ pre op post, ops = pre ++ op :: post ∧
        completes_modeset V (run V plane pre) op = true ∧
        ∀ e ∈ post, Op.isActivated e = false := by
  induction ops using List.reverseRecOn with
  | nil =>
    constructor
    · intro h
      rw [show run V plane [] = plane from rfl, hneed] at h
      cases h
    · rintro ⟨pre, op, post, h, _⟩
      cases pre <;> cases h
  | append_singleton ops x ih =>
    rw [run_append_singleton, step_need_modeset]
    constructor
    · intro h
      rw [Bool.or_eq_false_iff] at h
      obtain ⟨hact, hrest⟩ := h
      cases hc : completes_modeset V (run V plane ops) x with
      | true => exact ⟨ops, x, [], rfl, hc, fun e he => by cases he⟩
      | false =>
        rw [hc] at hrest
        simp only [Bool.not_false, Bool.and_true] at hrest
        obtain ⟨pre, op, post, hsplit, hcomp, hpost⟩ := ih.mp hrest
        refine ⟨pre, op, post ++ [x], by rw [hsplit]; simp, hcomp, ?_⟩
        intro e he
        rcases List.mem_append.mp he with h1 | h1
        · exact hpost e h1
        · rw [List.mem_singleton] at h1
          rw [h1]
          exact hact
    · rintro ⟨pre, op, post, hsplit, hcomp, hpost⟩
      rcases split_snoc pre post ops op x hsplit with ⟨_, hpre, hop⟩ | ⟨post1, hp, hops⟩
      · subst hpre
        subst hop
        have hna : Op.isActivated op = false := by
          cases op with
          | swc_event event => simp [completes_modeset, step] at hcomp
          | attach env buffer => rfl
          | move x y => rfl
          | update => rfl
          | page_flip time => rfl
          | send_frame now => rfl
        rw [hcomp, hna]
        simp
      · have hx : Op.isActivated x = false := hpost x (by rw [hp]; simp)
        have hprev : (run V plane ops).need_modeset = false :=
          ih.mpr ⟨pre, op, post1, hops, hcomp, fun e he => hpost e (by rw [hp]; simp [he])⟩
        rw [hx, hprev]
        simp

/-- C8: after a successful initialization `need_modeset` is set; after any
sequence of operations it is set exactly when no operation has completed a
`drmModeSetCrtc` answering 0 since the later of the initialization and the
last `SWC_EVENT_ACTIVATED` event.  Step by step: only an `SWC_EVENT_ACTIVATED`
event turns it from clear to set; only an `attach` that resolves its buffer
and whose `drmModeSetCrtc` answers 0 turns it from set to clear; `move`,
`update`, page-flip completion, the deferred `send_frame`, an `attach` on a
plane whose flag is clear, and events of any other type leave it as it is. -/
theorem need_modeset_tracks_pending_modeset (V : ViewModule) (ienv : InitEnv)
    (p0 : framebuffer_plane) (crtc : Nat) (mode : swc_mode) (cs : List Nat)
    (hinit : ( framebuffer_plane_initialize V ienv p0 crtc mode cs).ok = true) :
    ( framebuffer_plane_initialize V ienv p0 crtc mode cs).plane.need_modeset = true ∧
    (∀ ops : List Op,
      (run V ( framebuffer_plane_initialize V ienv p0 crtc mode cs).plane ops).need_modeset
          = true ↔
        ¬ ∃ pre op post, ops = pre ++ op :: post ∧
          completes_modeset V
            (run V ( framebuffer_plane_initialize V ienv p0 crtc mode cs).plane pre) op
              = true ∧
          ∀ e ∈ post, Op.isActivated e = false) ∧
    (∀ (q : framebuffer_plane) (op : Op), q.need_modeset = false →
      (step V q op).1.need_modeset = true → Op.isActivated op = true) ∧
    (∀ (q : framebuffer_plane) (op : Op), q.need_modeset = true →
      (step V q op).1.need_modeset = false →
        ∃ env buffer id, op = Op.attach env buffer ∧
          (attach_framebuffer env buffer).ret = .ok id ∧ env.drmModeSetCrtc = 0) ∧
    (∀ (q : framebuffer_plane) (event : swc_event), event.type = SWC_EVENT_ACTIVATED →
      (handle_swc_event q event).need_modeset = true) ∧
    (∀ (q : framebuffer_plane) (event : swc_event), event.type ≠ SWC_EVENT_ACTIVATED →
      (handle_swc_event q event).need_modeset = q.need_modeset) ∧
    (∀ (q : framebuffer_plane) (x y : Int), (move V q x y).2.need_modeset = q.need_modeset) ∧
    (∀ (q : framebuffer_plane) (op : Op),
      (op = Op.update ∨ (∃ time, op = Op.page_flip time) ∨ ∃ now, op = Op.send_frame now) →
        (step V q op).1.need_modeset = q.need_modeset) ∧
    (∀ (q : framebuffer_plane) (env : AttachEnv) (buffer : wld_buffer),
      q.need_modeset = false → (attach env q buffer).plane.need_modeset = false) := by
  have hneed := initialize_need_modeset V ienv p0 crtc mode cs hinit
  refine ⟨hneed, ?_, ?_, ?_, ?_, ?_, ?_, ?_, ?_⟩
  · intro ops
    rw [← run_need_modeset V _ hneed ops]
    simp
  · intro q op hq hafter
    rw [step_need_modeset, hq] at hafter
    simpa using hafter
  · intro q op hq hafter
    rw [step_need_modeset, hq, Bool.or_eq_false_iff] at hafter
    have hcomp : completes_modeset V q op = true := by simpa using hafter.2
    cases op with
    | attach env buffer =>
      obtain ⟨id, hres, _, hset⟩ := (attach_completes_iff env q buffer).mp hcomp
      exact ⟨env, buffer, id, rfl, hres, hset⟩
    | move x y => simp [completes_modeset, step] at hcomp
    | update => simp [completes_modeset, step] at hcomp
    | page_flip time =>
      simp [completes_modeset, step, handle_page_flip, Call.isSetCrtcOk] at hcomp
    | swc_event event => simp [completes_modeset, step] at hcomp
    | send_frame now =>
      simp [completes_modeset, step, send_frame, Call.isSetCrtcOk] at hcomp
  · intro q event hev
    exact handle_swc_event_activated q event hev
  · intro q event hev
    simp [handle_swc_event, hev]
  · intro q x y
    rfl
  · intro q op hop
    rcases hop with h | ⟨time, h⟩ | ⟨now, h⟩ <;> subst h <;> rfl
  · intro q env buffer hq
    rw [attach_need_modeset, hq]
    rfl

/-- C8 evaluated on the sample plane: the flag is set after initialization and
again after the sample session, whose last successful mode-set is followed by
an activation event. -/
theorem need_modeset_tracks_pending_modeset_witness :
    ( framebuffer_plane_initialize sample_view_module sample_init_env sample_storage 5
      sample_mode [7]).ok = true ∧
    sample_plane.need_modeset = true ∧
    (run sample_view_module sample_plane sample_ops).need_modeset = true ∧
    ¬ ∃ pre op post, sample_ops = pre ++ op :: post ∧
      completes_modeset sample_view_module (run sample_view_module sample_plane pre) op
        = true ∧
      ∀ e ∈ post, Op.isActivated e = false :=
  ⟨rfl,
    (need_modeset_tracks_pending_modeset sample_view_module sample_init_env sample_storage 5
      sample_mode [7] rfl).1,
    rfl,
    ((need_modeset_tracks_pending_modeset sample_view_module sample_init_env sample_storage 5
      sample_mode [7] rfl).2.1 sample_ops).mp rfl⟩

end Swc
